import Mathlib

set_option maxRecDepth 6000

/-!
Shallow embedding of the calculator-generator's composition engine
(Go sources: `internal/types.go`-style declarations, `internal/generator.go`,
`internal/gui_generator.go`, `cmd/generate.go`) and proofs of the spec's
claims about it.

Modelling conventions:
* Go structs become Lean structures with the same field names.
* Go `string`-typed enums (`CalculatorType`, UI style, theme, angle unit)
  stay `String`, as in the source.
* Go `int` becomes `Int`.
* A Go function returning `error` becomes `Option ValidationError`
  (`none` = success) or `Except`; `Generate`'s file writes are modelled by
  returning the artifact text and the optional requirements-manifest text.
* The wall-clock reading `time.Now().Format(...)` becomes an explicit
  `String` parameter `now`, so that nondeterminism is explicit.
* Literal braces inside embedded Python text are written `\x7b` / `\x7d`;
  the character content is identical to the source fragments.
-/

namespace CalcGen

/-- Libraries configuration for Python dependencies (struct `Libraries`). -/
structure Libraries where
  UseNumpy  : Bool
  UsePandas : Bool
  UseScipy  : Bool
  UseMath   : Bool
  UseSympy  : Bool
  UsePlotly : Bool
deriving DecidableEq

/-- Features configuration for calculator capabilities (struct `Features`). -/
structure Features where
  BasicArithmetic  : Bool
  History          : Bool
  Memory           : Bool
  Trigonometric    : Bool
  Logarithmic      : Bool
  Exponential      : Bool
  Statistical      : Bool
  LinearAlgebra    : Bool
  Calculus         : Bool
  Plotting         : Bool
  UnitConversion   : Bool
  ComplexNumbers   : Bool
  EquationSolver   : Bool
  MatrixOperations : Bool
  DataAnalysis     : Bool
  Graphing         : Bool
  Programming      : Bool
deriving DecidableEq

/-- UI configuration (struct `UIConfig`); `Style` is "cli"/"gui",
`Theme` is "light"/"dark"/"colorful", `AngleUnit` is "degrees"/"radians". -/
structure UIConfig where
  Style      : String
  Theme      : String
  ShowHelp   : Bool
  ShowBanner : Bool
  Precision  : Int
  AngleUnit  : String
deriving DecidableEq

/-- The constant `BasicCalculator CalculatorType = "basic"`. -/
def BasicCalculator : String := "basic"

/-- The constant `ScientificCalculator CalculatorType = "scientific"`. -/
def ScientificCalculator : String := "scientific"

/-- Full configuration (struct `CalculatorConfig`). `CalcType` embeds the
source's `Type` field (a `CalculatorType` string); `Type` is a Lean keyword. -/
structure CalculatorConfig where
  CalcType    : String
  OutputFile  : String
  ProjectName : String
  Author      : String
  Description : String
  Interactive : Bool
  Libraries   : Libraries
  Features    : Features
  UI          : UIConfig
deriving DecidableEq

/-- Validation error (struct `ValidationError`). -/
structure ValidationError where
  Field   : String
  Message : String
deriving DecidableEq

/-- `GetDefaultConfig` from the source: the default configuration value. -/
def GetDefaultConfig : CalculatorConfig where
  CalcType := BasicCalculator
  OutputFile := "calculator.py"
  ProjectName := "Python Calculator"
  Author := "Calculator Generator"
  Description := "A customizable calculator application"
  Interactive := true
  Libraries :=
    { UseNumpy := false, UsePandas := false, UseScipy := false
      UseMath := true, UseSympy := false, UsePlotly := false }
  Features :=
    { BasicArithmetic := true, History := false, Memory := false
      Trigonometric := false, Logarithmic := false, Exponential := false
      Statistical := false, LinearAlgebra := false, Calculus := false
      Plotting := false, UnitConversion := false, ComplexNumbers := false
      EquationSolver := false, MatrixOperations := false, DataAnalysis := false
      Graphing := false, Programming := false }
  UI :=
    { Style := "cli", Theme := "light", ShowHelp := true, ShowBanner := true
      Precision := 10, AngleUnit := "degrees" }

/-- `GetScientificConfig` from the source: the default configuration with the
scientific libraries and features switched on. -/
def GetScientificConfig : CalculatorConfig :=
  let config := GetDefaultConfig
  { config with
    CalcType := ScientificCalculator
    Description := "A scientific calculator with advanced mathematical functions"
    Libraries.UseNumpy := true
    Libraries.UseScipy := true
    Libraries.UseSympy := true
    Features.Trigonometric := true
    Features.Logarithmic := true
    Features.Exponential := true
    Features.Statistical := true
    Features.LinearAlgebra := true
    Features.ComplexNumbers := true
    Features.History := true
    Features.Memory := true }

/-- `validateConfig` from the source: empty output file, empty project name,
or precision outside [1,20] fail; `none` means the configuration is valid. -/
def validateConfig (c : CalculatorConfig) : Option ValidationError :=
  if c.OutputFile = "" then
    some ⟨"output_file", "output file cannot be empty"⟩
  else if c.ProjectName = "" then
    some ⟨"project_name", "project name cannot be empty"⟩
  else if c.UI.Precision < 1 ∨ c.UI.Precision > 20 then
    some ⟨"precision", "precision must be between 1 and 20"⟩
  else
    none

/-- `generateImports` from the source: the sequentially appended import list,
written as the equivalent concatenation of its conditional segments. -/
def generateImports (c : CalculatorConfig) : List String :=
  ["import sys", "import os"]
  ++ (if c.Libraries.UseMath then ["import math"] else [])
  ++ (if c.Features.History then
        ["import json", "from datetime import datetime"] else [])
  ++ (if c.Libraries.UseNumpy then ["import numpy as np"] else [])
  ++ (if c.Libraries.UsePandas then ["import pandas as pd"] else [])
  ++ (if c.Libraries.UseScipy then
        ["import scipy as sp", "from scipy import stats, optimize, integrate"]
      else [])
  ++ (if c.Libraries.UseSympy then
        ["import sympy as sym",
         "from sympy import symbols, solve, diff, integrate as sym_integrate"]
      else [])
  ++ (if c.Libraries.UsePlotly || c.Features.Plotting then
        ["import plotly.graph_objects as go", "import plotly.express as px"]
      else [])
  ++ (if c.Features.ComplexNumbers then ["import cmath"] else [])

/-- `hasExternalLibraries` from `cmd/generate.go`. -/
def hasExternalLibraries (c : CalculatorConfig) : Bool :=
  c.Libraries.UseNumpy || c.Libraries.UsePandas || c.Libraries.UseScipy ||
  c.Libraries.UseSympy || c.Libraries.UsePlotly

/-- The requirement lines accumulated by `generateRequirements`, written as
the equivalent concatenation of its conditional appends. -/
def requirementsList (c : CalculatorConfig) : List String :=
  (if c.Libraries.UseNumpy then ["numpy>=1.21.0"] else [])
  ++ (if c.Libraries.UsePandas then ["pandas>=1.3.0"] else [])
  ++ (if c.Libraries.UseScipy then ["scipy>=1.7.0"] else [])
  ++ (if c.Libraries.UseSympy then ["sympy>=1.9.0"] else [])
  ++ (if c.Libraries.UsePlotly || c.Features.Plotting then
        ["plotly>=5.0.0"] else [])
  ++ (if c.UI.Style = "gui" then ["# tkinter (included with Python)"] else [])

/-- `generateRequirements` from the source: `none` models "no requirements
file needed" (the early `return nil`), `some text` the written file content
`strings.Join(requirements, "\n") + "\n"`. -/
def generateRequirements (c : CalculatorConfig) : Option String :=
  let requirements := requirementsList c
  if requirements = [] then none
  else some (String.intercalate "\n" requirements ++ "\n")

/-- `generateBasicArithmetic` from the source (constant fragment list). -/
def generateBasicArithmetic : List String :=
  ["def add(a, b):
    \"\"\"Addition operation\"\"\"
    return a + b",

   "def subtract(a, b):
    \"\"\"Subtraction operation\"\"\"
    return a - b",

   "def multiply(a, b):
    \"\"\"Multiplication operation\"\"\"
    return a * b",

   "def divide(a, b):
    \"\"\"Division operation\"\"\"
    if b == 0:
        raise ValueError(\"Cannot divide by zero\")
    return a / b",

   "def power(a, b):
    \"\"\"Power operation\"\"\"
    return a ** b",

   "def modulo(a, b):
    \"\"\"Modulo operation\"\"\"
    if b == 0:
        raise ValueError(\"Cannot calculate modulo with zero\")
    return a % b"]

/-- `generateMemoryFunctions` from the source (constant fragment list). -/
def generateMemoryFunctions : List String :=
  ["class Memory:
    \"\"\"Calculator memory functionality\"\"\"
    def __init__(self):
        self.value = 0

    def store(self, value):
        \"\"\"Store value in memory\"\"\"
        self.value = value
        return f\"Stored \x7bvalue\x7d in memory\"

    def recall(self):
        \"\"\"Recall value from memory\"\"\"
        return self.value

    def clear(self):
        \"\"\"Clear memory\"\"\"
        self.value = 0
        return \"Memory cleared\"

    def add_to_memory(self, value):
        \"\"\"Add value to memory\"\"\"
        self.value += value
        return f\"Added \x7bvalue\x7d to memory, new value: \x7bself.value\x7d\""]

/-- `generateHistoryFunctions` from the source (constant fragment list). -/
def generateHistoryFunctions : List String :=
  ["class History:
    \"\"\"Calculator history functionality\"\"\"
    def __init__(self, max_entries=100):
        self.entries = []
        self.max_entries = max_entries

    def add_entry(self, operation, result):
        \"\"\"Add calculation to history\"\"\"
        entry = \x7b
            \"timestamp\": datetime.now().isoformat(),
            \"operation\": operation,
            \"result\": result
        \x7d
        self.entries.append(entry)

        # Keep only max_entries
        if len(self.entries) > self.max_entries:
            self.entries = self.entries[-self.max_entries:]

    def get_history(self, count=10):
        \"\"\"Get recent history entries\"\"\"
        return self.entries[-count:]

    def clear_history(self):
        \"\"\"Clear calculation history\"\"\"
        self.entries = []
        return \"History cleared\"

    def save_to_file(self, filename=\"calculator_history.json\"):
        \"\"\"Save history to file\"\"\"
        with open(filename, 'w') as f:
            json.dump(self.entries, f, indent=2)
        return f\"History saved to \x7bfilename\x7d\""]

/-- `generateTrigonometricFunctions` from the source (constant fragment list). -/
def generateTrigonometricFunctions : List String :=
  ["def sin(x, angle_unit=\"degrees\"):
    \"\"\"Sine function\"\"\"
    if angle_unit == \"degrees\":
        x = math.radians(x)
    return math.sin(x)",

   "def cos(x, angle_unit=\"degrees\"):
    \"\"\"Cosine function\"\"\"
    if angle_unit == \"degrees\":
        x = math.radians(x)
    return math.cos(x)",

   "def tan(x, angle_unit=\"degrees\"):
    \"\"\"Tangent function\"\"\"
    if angle_unit == \"degrees\":
        x = math.radians(x)
    return math.tan(x)",

   "def asin(x, angle_unit=\"degrees\"):
    \"\"\"Arcsine function\"\"\"
    result = math.asin(x)
    if angle_unit == \"degrees\":
        result = math.degrees(result)
    return result",

   "def acos(x, angle_unit=\"degrees\"):
    \"\"\"Arccosine function\"\"\"
    result = math.acos(x)
    if angle_unit == \"degrees\":
        result = math.degrees(result)
    return result",

   "def atan(x, angle_unit=\"degrees\"):
    \"\"\"Arctangent function\"\"\"
    result = math.atan(x)
    if angle_unit == \"degrees\":
        result = math.degrees(result)
    return result"]

/-- `generateLogarithmicFunctions` from the source (constant fragment list). -/
def generateLogarithmicFunctions : List String :=
  ["def log(x, base=10):
    \"\"\"Logarithm function\"\"\"
    if x <= 0:
        raise ValueError(\"Logarithm input must be positive\")
    if base == math.e:
        return math.log(x)
    return math.log(x, base)",

   "def ln(x):
    \"\"\"Natural logarithm\"\"\"
    if x <= 0:
        raise ValueError(\"Natural logarithm input must be positive\")
    return math.log(x)",

   "def log10(x):
    \"\"\"Base-10 logarithm\"\"\"
    if x <= 0:
        raise ValueError(\"Logarithm input must be positive\")
    return math.log10(x)",

   "def log2(x):
    \"\"\"Base-2 logarithm\"\"\"
    if x <= 0:
        raise ValueError(\"Logarithm input must be positive\")
    return math.log2(x)"]

/-- `generateStatisticalFunctions` from the source (constant fragment list). -/
def generateStatisticalFunctions : List String :=
  ["def mean(data):
    \"\"\"Calculate mean of data\"\"\"
    return np.mean(data)",

   "def median(data):
    \"\"\"Calculate median of data\"\"\"
    return np.median(data)",

   "def std(data):
    \"\"\"Calculate standard deviation\"\"\"
    return np.std(data)",

   "def variance(data):
    \"\"\"Calculate variance\"\"\"
    return np.var(data)",

   "def correlation(x, y):
    \"\"\"Calculate correlation coefficient\"\"\"
    return np.corrcoef(x, y)[0, 1]"]

/-- `generateLinearAlgebraFunctions` from the source (constant fragment list). -/
def generateLinearAlgebraFunctions : List String :=
  ["def matrix_multiply(a, b):
    \"\"\"Matrix multiplication\"\"\"
    return np.dot(a, b)",

   "def matrix_inverse(matrix):
    \"\"\"Matrix inverse\"\"\"
    return np.linalg.inv(matrix)",

   "def matrix_determinant(matrix):
    \"\"\"Matrix determinant\"\"\"
    return np.linalg.det(matrix)",

   "def eigenvalues(matrix):
    \"\"\"Calculate eigenvalues\"\"\"
    return np.linalg.eigvals(matrix)"]

/-- `generatePlottingFunctions` from the source (constant fragment list). -/
def generatePlottingFunctions : List String :=
  ["def plot_function(func_str, x_range=(-10, 10), num_points=100):
    \"\"\"Plot a mathematical function\"\"\"
    x = np.linspace(x_range[0], x_range[1], num_points)
    y = eval(func_str.replace('x', 'x'))

    fig = go.Figure()
    fig.add_trace(go.Scatter(x=x, y=y, mode='lines', name=func_str))
    fig.update_layout(title=f\"Plot of \x7bfunc_str\x7d\", xaxis_title=\"x\", yaxis_title=\"y\")
    fig.show()",

   "def plot_data(x_data, y_data, title=\"Data Plot\"):
    \"\"\"Plot data points\"\"\"
    fig = go.Figure()
    fig.add_trace(go.Scatter(x=x_data, y=y_data, mode='markers+lines'))
    fig.update_layout(title=title, xaxis_title=\"x\", yaxis_title=\"y\")
    fig.show()"]

/-- `generateEquationSolverFunctions` from the source (constant fragment list). -/
def generateEquationSolverFunctions : List String :=
  ["def solve_equation(equation_str, variable='x'):
    \"\"\"Solve algebraic equation\"\"\"
    x = symbols(variable)
    equation = sym.sympify(equation_str)
    solutions = solve(equation, x)
    return solutions",

   "def differentiate(expr_str, variable='x'):
    \"\"\"Calculate derivative\"\"\"
    x = symbols(variable)
    expr = sym.sympify(expr_str)
    return diff(expr, x)",

   "def integrate_symbolic(expr_str, variable='x'):
    \"\"\"Calculate symbolic integral\"\"\"
    x = symbols(variable)
    expr = sym.sympify(expr_str)
    return sym_integrate(expr, x)"]

/-- `generateFunctions` from the source: the sequentially appended fragment
list, written as the equivalent concatenation of its guarded segments. -/
def generateFunctions (c : CalculatorConfig) : List String :=
  (if c.Features.BasicArithmetic then generateBasicArithmetic else [])
  ++ (if c.Features.Memory then generateMemoryFunctions else [])
  ++ (if c.Features.History then generateHistoryFunctions else [])
  ++ (if c.Features.Trigonometric then generateTrigonometricFunctions else [])
  ++ (if c.Features.Logarithmic then generateLogarithmicFunctions else [])
  ++ (if c.Features.Statistical && c.Libraries.UseNumpy then
        generateStatisticalFunctions else [])
  ++ (if c.Features.LinearAlgebra && c.Libraries.UseNumpy then
        generateLinearAlgebraFunctions else [])
  ++ (if c.Features.Plotting && c.Libraries.UsePlotly then
        generatePlottingFunctions else [])
  ++ (if c.Features.EquationSolver && c.Libraries.UseSympy then
        generateEquationSolverFunctions else [])

/-- `generateMainContent` from the source: the `Calculator` class text built
by the sequence of `content.WriteString` calls, with the same conditionals. -/
def generateMainContent (c : CalculatorConfig) : String :=
  "class Calculator:
    \"\"\"Main calculator class\"\"\"

    def __init__(self):
        self.precision = " ++ toString c.UI.Precision ++ "
        self.angle_unit = \"" ++ c.UI.AngleUnit ++ "\"
"
  ++ (if c.Features.Memory then "        self.memory = Memory()\n" else "")
  ++ (if c.Features.History then "        self.history = History()\n" else "")
  ++ "
    def format_result(self, result):
        \"\"\"Format calculation result\"\"\"
        if isinstance(result, (int, float)):
            return round(result, self.precision)
        return result

    def run(self):
        \"\"\"Run the calculator interface\"\"\"
"
  ++ (if c.UI.ShowBanner then "        self.show_banner()\n" else "")
  ++ (if c.Interactive then
        "        self.interactive_mode()

    def interactive_mode(self):
        \"\"\"Interactive calculator mode\"\"\"
        print(\"Calculator started. Type 'help' for commands, 'quit' to exit.\")

        while True:
            try:
                user_input = input(\"calc> \").strip()

                if user_input.lower() in ['quit', 'exit', 'q']:
                    break
                elif user_input.lower() == 'help':
                    self.show_help()
                elif user_input.lower() == 'clear':
                    os.system('cls' if os.name == 'nt' else 'clear')
"
        ++ (if c.Features.Memory then
              "                elif user_input.lower().startswith('mem'):
                    self.handle_memory_commands(user_input)
"
            else "")
        ++ (if c.Features.History then
              "                elif user_input.lower().startswith('hist'):
                    self.handle_history_commands(user_input)
"
            else "")
        ++ "                else:
                    result = self.evaluate_expression(user_input)
                    formatted_result = self.format_result(result)
                    print(f\"Result: \x7bformatted_result\x7d\")
"
        ++ (if c.Features.History then
              "                    self.history.add_entry(user_input, formatted_result)\n"
            else "")
        ++ "
            except KeyboardInterrupt:
                print(\"\\nGoodbye!\")
                break
            except Exception as e:
                print(f\"Error: \x7be\x7d\")
"
      else "")
  ++ (if c.UI.ShowBanner then
        "
    def show_banner(self):
        \"\"\"Display calculator banner\"\"\"
        print(\"=\"*50)
        print(f\"  " ++ c.ProjectName ++ "\")
        print(f\"  " ++ c.Description ++ "\")
        print(\"=\"*50)
"
      else "")
  ++ (if c.UI.ShowHelp then
        "
    def show_help(self):
        \"\"\"Display help information\"\"\"
        help_text = \"\"\"
Available commands:
  Basic operations: +, -, *, /, **, %
  Functions: sin(), cos(), tan(), log(), ln(), sqrt()
"
        ++ (if c.Features.Memory then
              "  Memory: mem store <value>, mem recall, mem clear\n" else "")
        ++ (if c.Features.History then
              "  History: hist show, hist clear, hist save\n" else "")
        ++ "  Other: help, clear, quit
        \"\"\"
        print(help_text)
"
      else "")
  ++ "
    def evaluate_expression(self, expression):
        \"\"\"Evaluate mathematical expression\"\"\"
        # Basic expression evaluation
        try:
            # Replace common functions
            expression = expression.replace('^', '**')
            "
  ++ (if c.Libraries.UseMath then
        "
            # Add math functions to evaluation context
            safe_dict = \x7b
                \"__builtins__\": \x7b\x7d,
                \"abs\": abs, \"round\": round, \"min\": min, \"max\": max,
                \"sqrt\": math.sqrt, \"pi\": math.pi, \"e\": math.e
            \x7d"
        ++ (if c.Features.Trigonometric then
              "
            safe_dict.update(\x7b
                \"sin\": lambda x: sin(x, self.angle_unit),
                \"cos\": lambda x: cos(x, self.angle_unit),
                \"tan\": lambda x: tan(x, self.angle_unit),
                \"asin\": lambda x: asin(x, self.angle_unit),
                \"acos\": lambda x: acos(x, self.angle_unit),
                \"atan\": lambda x: atan(x, self.angle_unit)
            \x7d)"
            else "")
        ++ (if c.Features.Logarithmic then
              "
            safe_dict.update(\x7b
                \"log\": log, \"ln\": ln, \"log10\": log10, \"log2\": log2
            \x7d)"
            else "")
      else
        "
            safe_dict = \x7b
                \"__builtins__\": \x7b\x7d,
                \"abs\": abs, \"round\": round, \"min\": min, \"max\": max
            \x7d")
  ++ (if c.Libraries.UseNumpy then
        "
            safe_dict.update(\x7b
                \"np\": np, \"array\": np.array, \"mean\": mean,
                \"median\": median, \"std\": std
            \x7d)"
      else "")
  ++ "

            return eval(expression, safe_dict)
        except Exception as e:
            raise ValueError(f\"Invalid expression: \x7be\x7d\")
"
  ++ (if c.Features.Memory then
        "
    def handle_memory_commands(self, command):
        \"\"\"Handle memory-related commands\"\"\"
        parts = command.split()
        if len(parts) < 2:
            print(\"Memory commands: mem store <value>, mem recall, mem clear\")
            return

        action = parts[1].lower()
        if action == \"store\" and len(parts) > 2:
            try:
                value = float(parts[2])
                print(self.memory.store(value))
            except ValueError:
                print(\"Invalid value for memory storage\")
        elif action == \"recall\":
            print(f\"Memory: \x7bself.memory.recall()\x7d\")
        elif action == \"clear\":
            print(self.memory.clear())
        else:
            print(\"Unknown memory command\")
"
      else "")
  ++ (if c.Features.History then
        "
    def handle_history_commands(self, command):
        \"\"\"Handle history-related commands\"\"\"
        parts = command.split()
        if len(parts) < 2:
            print(\"History commands: hist show, hist clear, hist save\")
            return

        action = parts[1].lower()
        if action == \"show\":
            count = 10
            if len(parts) > 2:
                try:
                    count = int(parts[2])
                except ValueError:
                    pass
            history = self.history.get_history(count)
            for entry in history:
                print(f\"\x7bentry['timestamp']\x7d: \x7bentry['operation']\x7d = \x7bentry['result']\x7d\")
        elif action == \"clear\":
            print(self.history.clear_history())
        elif action == \"save\":
            filename = \"calculator_history.json\"
            if len(parts) > 2:
                filename = parts[2]
            print(self.history.save_to_file(filename))
        else:
            print(\"Unknown history command\")
"
      else "")

/-- Template data (struct `TemplateData`). -/
structure TemplateData where
  Config      : CalculatorConfig
  Imports     : List String
  Functions   : List String
  MainContent : String
  Version     : String
  Timestamp   : String
deriving DecidableEq

/-- `prepareTemplateData` from the source; the source's
`time.Now().Format("2006-01-02 15:04:05")` is the explicit argument `now`. -/
def prepareTemplateData (c : CalculatorConfig) (now : String) : TemplateData where
  Config := c
  Imports := generateImports c
  Functions := generateFunctions c
  MainContent := generateMainContent c
  Version := "1.0.0"
  Timestamp := now

/-- Concatenation of a list of strings; used to embed the Go template's
`{{range ...}}` loops. -/
def strJoin : List String → String
  | [] => ""
  | s :: rest => s ++ strJoin rest

/-- `renderTemplate` from the source: the fixed Go `text/template` applied to
the template data (the template always parses and executes, so no error
case remains). Each `{{range}}` iteration emits its literal glue text. -/
def renderTemplate (d : TemplateData) : String :=
  "#!/usr/bin/env python3\n\"\"\"\n"
  ++ d.Config.ProjectName ++ "\n"
  ++ d.Config.Description
  ++ "\n\nGenerated by Calculator Generator\nAuthor: "
  ++ d.Config.Author
  ++ "\nVersion: " ++ d.Version
  ++ "\nGenerated: " ++ d.Timestamp
  ++ "\n\"\"\"\n\n"
  ++ strJoin (d.Imports.map (fun s => s ++ "\n"))
  ++ "\n"
  ++ strJoin (d.Functions.map (fun s => "\n" ++ s ++ "\n\n"))
  ++ "\n\n"
  ++ d.MainContent
  ++ "\n\nif __name__ == \"__main__\":\n    calculator = Calculator()\n    calculator.run()\n"

/-- `generateGUIImports` from `gui_generator.go`: the GUI import list, with
the fixed tkinter/math/sys/os head, as the equivalent concatenation. -/
def generateGUIImports (c : CalculatorConfig) : List String :=
  ["import tkinter as tk",
   "from tkinter import ttk, messagebox, simpledialog",
   "import math",
   "import sys",
   "import os"]
  ++ (if c.Features.History then
        ["import json", "from datetime import datetime"] else [])
  ++ (if c.Libraries.UseNumpy then ["import numpy as np"] else [])
  ++ (if c.Libraries.UsePandas then ["import pandas as pd"] else [])
  ++ (if c.Libraries.UseScipy then
        ["import scipy as sp", "from scipy import stats, optimize, integrate"]
      else [])
  ++ (if c.Libraries.UseSympy then
        ["import sympy as sym",
         "from sympy import symbols, solve, diff, integrate as sym_integrate"]
      else [])
  ++ (if c.Libraries.UsePlotly || c.Features.Plotting then
        ["import plotly.graph_objects as go", "import plotly.express as px"]
      else [])
  ++ (if c.Features.ComplexNumbers then ["import cmath"] else [])

/-- `GUIGenerator.generateBasicArithmeticFunctions` (constant fragment list). -/
def generateGUIBasicArithmeticFunctions : List String :=
  ["def safe_eval(expression):
    \"\"\"Safely evaluate mathematical expressions\"\"\"
    try:
        # Replace common symbols
        expression = expression.replace('^', '**')
        expression = expression.replace('×', '*')
        expression = expression.replace('÷', '/')

        # Create safe evaluation context
        safe_dict = \x7b
            \"__builtins__\": \x7b\x7d,
            \"abs\": abs, \"round\": round, \"min\": min, \"max\": max,
            \"sqrt\": math.sqrt, \"pi\": math.pi, \"e\": math.e,
            \"sin\": math.sin, \"cos\": math.cos, \"tan\": math.tan,
            \"asin\": math.asin, \"acos\": math.acos, \"atan\": math.atan,
            \"log\": math.log10, \"ln\": math.log, \"log10\": math.log10,
            \"exp\": math.exp, \"pow\": pow
        \x7d

        return eval(expression, safe_dict)
    except Exception as e:
        raise ValueError(f\"Invalid expression: \x7bstr(e)\x7d\")"]

/-- `GUIGenerator.generateTrigonometricFunctions` (constant fragment list). -/
def generateGUITrigonometricFunctions : List String :=
  ["def deg_to_rad(degrees):
    \"\"\"Convert degrees to radians\"\"\"
    return math.radians(degrees)

def rad_to_deg(radians):
    \"\"\"Convert radians to degrees\"\"\"
    return math.degrees(radians)"]

/-- `GUIGenerator.generateLogarithmicFunctions` (constant fragment list). -/
def generateGUILogarithmicFunctions : List String :=
  ["def safe_log(x, base=10):
    \"\"\"Safe logarithm function\"\"\"
    if x <= 0:
        raise ValueError(\"Logarithm input must be positive\")
    if base == math.e:
        return math.log(x)
    return math.log(x, base)"]

/-- `GUIGenerator.generateStatisticalFunctions` (constant fragment list). -/
def generateGUIStatisticalFunctions : List String :=
  ["def calculate_stats(data_str):
    \"\"\"Calculate statistics from comma-separated data\"\"\"
    try:
        data = [float(x.strip()) for x in data_str.split(',')]
        return \x7b
            'mean': np.mean(data),
            'median': np.median(data),
            'std': np.std(data),
            'var': np.var(data),
            'min': np.min(data),
            'max': np.max(data)
        \x7d
    except Exception as e:
        raise ValueError(f\"Invalid data format: \x7bstr(e)\x7d\")"]

/-- `GUIGenerator.generateMemoryClass` (constant fragment). -/
def generateGUIMemoryClass : String :=
  "class MemoryManager:
    \"\"\"Handles calculator memory operations\"\"\"
    def __init__(self):
        self.memory = 0

    def store(self, value):
        \"\"\"Store value in memory\"\"\"
        self.memory = float(value)

    def recall(self):
        \"\"\"Recall value from memory\"\"\"
        return self.memory

    def clear(self):
        \"\"\"Clear memory\"\"\"
        self.memory = 0

    def add(self, value):
        \"\"\"Add value to memory\"\"\"
        self.memory += float(value)

    def subtract(self, value):
        \"\"\"Subtract value from memory\"\"\"
        self.memory -= float(value)"

/-- `GUIGenerator.generateHistoryClass` (constant fragment). -/
def generateGUIHistoryClass : String :=
  "class HistoryManager:
    \"\"\"Handles calculation history\"\"\"
    def __init__(self, max_entries=100):
        self.history = []
        self.max_entries = max_entries

    def add_entry(self, expression, result):
        \"\"\"Add calculation to history\"\"\"
        entry = \x7b
            'timestamp': datetime.now().strftime('%H:%M:%S'),
            'expression': expression,
            'result': str(result)
        \x7d
        self.history.append(entry)

        # Keep only max_entries
        if len(self.history) > self.max_entries:
            self.history = self.history[-self.max_entries:]

    def get_history(self):
        \"\"\"Get all history entries\"\"\"
        return self.history

    def clear(self):
        \"\"\"Clear history\"\"\"
        self.history = []

    def save_to_file(self, filename):
        \"\"\"Save history to file\"\"\"
        with open(filename, 'w') as f:
            json.dump(self.history, f, indent=2)"

/-- `generateGUIFunctions` from `gui_generator.go`: the GUI fragment list,
as the equivalent concatenation of its guarded segments. -/
def generateGUIFunctions (c : CalculatorConfig) : List String :=
  (if c.Features.BasicArithmetic then generateGUIBasicArithmeticFunctions else [])
  ++ (if c.Features.Trigonometric then generateGUITrigonometricFunctions else [])
  ++ (if c.Features.Logarithmic then generateGUILogarithmicFunctions else [])
  ++ (if c.Features.Statistical && c.Libraries.UseNumpy then
        generateGUIStatisticalFunctions else [])
  ++ (if c.Features.Memory then [generateGUIMemoryClass] else [])
  ++ (if c.Features.History then [generateGUIHistoryClass] else [])

/-- `generateBasicLayout` from `gui_generator.go` (4-column grid). -/
def generateBasicLayout (c : CalculatorConfig) : String :=
  "

        # Basic calculator layout (4x5 grid)
        row = 0

        # Memory buttons (if enabled)"
  ++ (if c.Features.Memory then
        "
        if hasattr(self, 'mem_buttons'):
            col = 0
            for text, button in self.mem_buttons.items():
                button.grid(row=row, column=col, padx=2, pady=2, sticky='nsew')
                col += 1
            row += 1"
      else "")
  ++ "

        # Clear buttons
        self.op_buttons['CE'].grid(row=row, column=0, padx=2, pady=2, sticky='nsew')
        self.op_buttons['C'].grid(row=row, column=1, padx=2, pady=2, sticky='nsew')
        row += 1

        # Number and operator layout
        # Row 1: 7, 8, 9, /
        self.num_buttons[7].grid(row=row, column=0, padx=2, pady=2, sticky='nsew')
        self.num_buttons[8].grid(row=row, column=1, padx=2, pady=2, sticky='nsew')
        self.num_buttons[9].grid(row=row, column=2, padx=2, pady=2, sticky='nsew')
        self.op_buttons['/'].grid(row=row, column=3, padx=2, pady=2, sticky='nsew')
        row += 1

        # Row 2: 4, 5, 6, *
        self.num_buttons[4].grid(row=row, column=0, padx=2, pady=2, sticky='nsew')
        self.num_buttons[5].grid(row=row, column=1, padx=2, pady=2, sticky='nsew')
        self.num_buttons[6].grid(row=row, column=2, padx=2, pady=2, sticky='nsew')
        self.op_buttons['*'].grid(row=row, column=3, padx=2, pady=2, sticky='nsew')
        row += 1

        # Row 3: 1, 2, 3, -
        self.num_buttons[1].grid(row=row, column=0, padx=2, pady=2, sticky='nsew')
        self.num_buttons[2].grid(row=row, column=1, padx=2, pady=2, sticky='nsew')
        self.num_buttons[3].grid(row=row, column=2, padx=2, pady=2, sticky='nsew')
        self.op_buttons['-'].grid(row=row, column=3, padx=2, pady=2, sticky='nsew')
        row += 1

        # Row 4: 0, ., =, +
        self.num_buttons[0].grid(row=row, column=0, columnspan=2, padx=2, pady=2, sticky='nsew')
        self.op_buttons['.'].grid(row=row, column=2, padx=2, pady=2, sticky='nsew')
        self.op_buttons['+'].grid(row=row, column=3, padx=2, pady=2, sticky='nsew')
        row += 1

        # Equals button
        self.op_buttons['='].grid(row=row, column=0, columnspan=4, padx=2, pady=2, sticky='nsew')

        # Configure grid weights
        for i in range(4):
            self.button_frame.columnconfigure(i, weight=1)
        for i in range(row + 1):
            self.button_frame.rowconfigure(i, weight=1)"

/-- `generateScientificLayout` from `gui_generator.go` (6-column grid with
conditional trigonometric and logarithmic button groups). -/
def generateScientificLayout (c : CalculatorConfig) : String :=
  "

        # Scientific calculator layout (6x8 grid)
        row = 0

        # Memory buttons (if enabled)"
  ++ (if c.Features.Memory then
        "
        if hasattr(self, 'mem_buttons'):
            col = 0
            for text, button in self.mem_buttons.items():
                button.grid(row=row, column=col, padx=1, pady=1, sticky='nsew')
                col += 1
            row += 1"
      else "")
  ++ (if c.Features.Trigonometric then
        "

        # Trigonometric functions
        if hasattr(self, 'trig_buttons'):
            col = 0
            for text, button in self.trig_buttons.items():
                button.grid(row=row, column=col, padx=1, pady=1, sticky='nsew')
                col += 1
            row += 1"
      else "")
  ++ (if c.Features.Logarithmic then
        "

        # Logarithmic functions
        if hasattr(self, 'log_buttons'):
            col = 3
            for text, button in self.log_buttons.items():
                button.grid(row=row-1, column=col, padx=1, pady=1, sticky='nsew')
                col += 1"
      else "")
  ++ "

        # Clear buttons
        self.op_buttons['CE'].grid(row=row, column=0, padx=1, pady=1, sticky='nsew')
        self.op_buttons['C'].grid(row=row, column=1, padx=1, pady=1, sticky='nsew')
        row += 1

        # Standard calculator layout
        # Row: 7, 8, 9, /
        self.num_buttons[7].grid(row=row, column=0, padx=1, pady=1, sticky='nsew')
        self.num_buttons[8].grid(row=row, column=1, padx=1, pady=1, sticky='nsew')
        self.num_buttons[9].grid(row=row, column=2, padx=1, pady=1, sticky='nsew')
        self.op_buttons['/'].grid(row=row, column=3, padx=1, pady=1, sticky='nsew')
        row += 1

        # Row: 4, 5, 6, *
        self.num_buttons[4].grid(row=row, column=0, padx=1, pady=1, sticky='nsew')
        self.num_buttons[5].grid(row=row, column=1, padx=1, pady=1, sticky='nsew')
        self.num_buttons[6].grid(row=row, column=2, padx=1, pady=1, sticky='nsew')
        self.op_buttons['*'].grid(row=row, column=3, padx=1, pady=1, sticky='nsew')
        row += 1

        # Row: 1, 2, 3, -
        self.num_buttons[1].grid(row=row, column=0, padx=1, pady=1, sticky='nsew')
        self.num_buttons[2].grid(row=row, column=1, padx=1, pady=1, sticky='nsew')
        self.num_buttons[3].grid(row=row, column=2, padx=1, pady=1, sticky='nsew')
        self.op_buttons['-'].grid(row=row, column=3, padx=1, pady=1, sticky='nsew')
        row += 1

        # Row: 0, ., =, +
        self.num_buttons[0].grid(row=row, column=0, columnspan=2, padx=1, pady=1, sticky='nsew')
        self.op_buttons['.'].grid(row=row, column=2, padx=1, pady=1, sticky='nsew')
        self.op_buttons['+'].grid(row=row, column=3, padx=1, pady=1, sticky='nsew')
        row += 1

        # Equals button
        self.op_buttons['='].grid(row=row, column=0, columnspan=4, padx=1, pady=1, sticky='nsew')

        # Configure grid weights
        for i in range(6):
            self.button_frame.columnconfigure(i, weight=1)
        for i in range(row + 1):
            self.button_frame.rowconfigure(i, weight=1)"

/-- `generateGUIMainContent` from `gui_generator.go`: the `CalculatorGUI`
class text built by the sequence of `content.WriteString` calls, with the
same conditionals (layout chosen by calculator type, dark/light theme by
table lookup). -/
def generateGUIMainContent (c : CalculatorConfig) : String :=
  "class CalculatorGUI:
    \"\"\"Main GUI Calculator Application\"\"\"

    def __init__(self):
        self.root = tk.Tk()
        self.root.title(\"" ++ c.ProjectName ++ "\")
        self.root.geometry(\"400x600\")
        self.root.resizable(False, False)

        # Calculator state
        self.display_var = tk.StringVar()
        self.display_var.set(\"0\")
        self.current_expression = \"\"
        self.result_shown = False
        self.angle_unit = \"" ++ c.UI.AngleUnit ++ "\"
        self.precision = " ++ toString c.UI.Precision ++ "

"
  ++ (if c.Features.Memory then "        self.memory = MemoryManager()\n" else "")
  ++ (if c.Features.History then "        self.history = HistoryManager()\n" else "")
  ++ "
        # Setup GUI
        self.create_widgets()
        self.setup_layout()
        self.setup_bindings()

        # Apply theme
        self.apply_theme()

    def create_widgets(self):
        \"\"\"Create all GUI widgets\"\"\"
        # Main frame
        self.main_frame = ttk.Frame(self.root, padding=\"10\")

        # Display frame
        self.display_frame = ttk.Frame(self.main_frame)
        self.display = ttk.Entry(
            self.display_frame,
            textvariable=self.display_var,
            justify='right',
            state='readonly'
        )

        # Expression display
        self.expr_var = tk.StringVar()
        self.expr_display = ttk.Label(
            self.display_frame,
            textvariable=self.expr_var
        )

        # Button frame
        self.button_frame = ttk.Frame(self.main_frame)

        # Create calculator buttons
        self.create_buttons()
"
  ++ (if c.Features.Memory || c.Features.History || c.Features.Statistical then
        "
        # Create menu
        self.create_menu()
"
      else "")
  ++ "
    def create_buttons(self):
        \"\"\"Create calculator buttons\"\"\"
        # Button configuration
        button_config = \x7b
            'width': 5
        \x7d

        # Number buttons (0-9)
        self.num_buttons = \x7b\x7d
        for i in range(10):
            self.num_buttons[i] = ttk.Button(
                self.button_frame,
                text=str(i),
                command=lambda n=i: self.append_number(str(n)),
                **button_config
            )

        # Operator buttons
        self.op_buttons = \x7b
            '+': ttk.Button(self.button_frame, text='+', command=lambda: self.append_operator('+'), **button_config),
            '-': ttk.Button(self.button_frame, text='-', command=lambda: self.append_operator('-'), **button_config),
            '*': ttk.Button(self.button_frame, text='×', command=lambda: self.append_operator('*'), **button_config),
            '/': ttk.Button(self.button_frame, text='÷', command=lambda: self.append_operator('/'), **button_config),
            '=': ttk.Button(self.button_frame, text='=', command=self.calculate, **button_config),
            '.': ttk.Button(self.button_frame, text='.', command=lambda: self.append_number('.'), **button_config),
            'C': ttk.Button(self.button_frame, text='C', command=self.clear, **button_config),
            'CE': ttk.Button(self.button_frame, text='CE', command=self.clear_entry, **button_config),
        \x7d

        # Advanced function buttons"
  ++ (if c.Features.Trigonometric then
        "
        if True:  # Trigonometric functions
            self.trig_buttons = \x7b
                'sin': ttk.Button(self.button_frame, text='sin', command=lambda: self.append_function('sin'), **button_config),
                'cos': ttk.Button(self.button_frame, text='cos', command=lambda: self.append_function('cos'), **button_config),
                'tan': ttk.Button(self.button_frame, text='tan', command=lambda: self.append_function('tan'), **button_config),
            \x7d"
      else "")
  ++ (if c.Features.Logarithmic then
        "
        if True:  # Logarithmic functions
            self.log_buttons = \x7b
                'log': ttk.Button(self.button_frame, text='log', command=lambda: self.append_function('log'), **button_config),
                'ln': ttk.Button(self.button_frame, text='ln', command=lambda: self.append_function('ln'), **button_config),
            \x7d"
      else "")
  ++ (if c.Features.Memory then
        "
        if True:  # Memory functions
            self.mem_buttons = \x7b
                'MS': ttk.Button(self.button_frame, text='MS', command=self.memory_store, **button_config),
                'MR': ttk.Button(self.button_frame, text='MR', command=self.memory_recall, **button_config),
                'MC': ttk.Button(self.button_frame, text='MC', command=self.memory_clear, **button_config),
            \x7d"
      else "")
  ++ "

    def setup_layout(self):
        \"\"\"Setup widget layout\"\"\"
        self.main_frame.pack(fill='both', expand=True)

        # Display layout
        self.display_frame.pack(fill='x', pady=(0, 10))
        self.expr_display.pack(fill='x')
        self.display.pack(fill='x', ipady=10)

        # Button layout
        self.button_frame.pack(fill='both', expand=True)

        # Layout buttons in grid"
  ++ (if c.CalcType = ScientificCalculator then generateScientificLayout c
      else generateBasicLayout c)
  ++ "

    def setup_bindings(self):
        \"\"\"Setup keyboard bindings\"\"\"
        self.root.bind('<Key>', self.on_key_press)
        self.root.focus_set()

    def on_key_press(self, event):
        \"\"\"Handle keyboard input\"\"\"
        key = event.char
        if key.isdigit():
            self.append_number(key)
        elif key in '+-*/':
            self.append_operator(key)
        elif key == '.':
            self.append_number('.')
        elif key == '\\r' or key == '=':
            self.calculate()
        elif key.lower() == 'c':
            self.clear()
        elif event.keysym == 'BackSpace':
            self.backspace()

    def append_number(self, number):
        \"\"\"Add number to current expression\"\"\"
        if self.result_shown:
            self.current_expression = \"\"
            self.result_shown = False

        if number == '.' and '.' in self.current_expression.split()[-1]:
            return  # Don't allow multiple decimal points

        self.current_expression += number
        self.update_display()

    def append_operator(self, operator):
        \"\"\"Add operator to current expression\"\"\"
        if self.result_shown:
            self.result_shown = False

        if self.current_expression and self.current_expression[-1] in '+-*/':
            self.current_expression = self.current_expression[:-1]

        self.current_expression += operator
        self.update_display()

    def append_function(self, function):
        \"\"\"Add function to current expression\"\"\"
        if self.result_shown:
            self.current_expression = \"\"
            self.result_shown = False

        self.current_expression += function + \"(\"
        self.update_display()

    def calculate(self):
        \"\"\"Perform calculation\"\"\"
        try:
            if not self.current_expression:
                return

            # Handle angle units for trig functions
            expression = self.current_expression"
  ++ (if c.Features.Trigonometric then
        "\n            if self.angle_unit == \"degrees\":\n                # Convert degrees to radians for trig functions\n                import re\n                trig_functions = ['sin', 'cos', 'tan']\n                for func in trig_functions:\n                    pattern = f'\x7bfunc\x7d\\\\(([^)]+)\\\\)'\n                    def replace_trig(match):\n                        angle = match.group(1)\n                        return f'\x7bfunc\x7d(math.radians(\x7bangle\x7d))'\n                    expression = re.sub(pattern, replace_trig, expression)"
      else "")
  ++ "

            result = safe_eval(expression)
            formatted_result = self.format_result(result)

            # Update display
            self.display_var.set(str(formatted_result))
            self.expr_var.set(f\"\x7bself.current_expression\x7d =\")

            # Add to history"
  ++ (if c.Features.History then
        "
            self.history.add_entry(self.current_expression, formatted_result)"
      else "")
  ++ "

            # Set up for next calculation
            self.current_expression = str(formatted_result)
            self.result_shown = True

        except Exception as e:
            self.display_var.set(\"Error\")
            self.expr_var.set(str(e))
            self.current_expression = \"\"

    def format_result(self, result):
        \"\"\"Format calculation result\"\"\"
        if isinstance(result, (int, float)):
            if result == int(result):
                return int(result)
            else:
                return round(result, self.precision)
        return result

    def clear(self):
        \"\"\"Clear everything\"\"\"
        self.current_expression = \"\"
        self.display_var.set(\"0\")
        self.expr_var.set(\"\")
        self.result_shown = False

    def clear_entry(self):
        \"\"\"Clear current entry\"\"\"
        self.current_expression = \"\"
        self.display_var.set(\"0\")
        self.update_display()

    def backspace(self):
        \"\"\"Remove last character\"\"\"
        if self.current_expression:
            self.current_expression = self.current_expression[:-1]
            self.update_display()

    def update_display(self):
        \"\"\"Update the display\"\"\"
        if self.current_expression:
            self.display_var.set(self.current_expression)
        else:
            self.display_var.set(\"0\")"
  ++ (if c.Features.Memory then
        "

    def memory_store(self):
        \"\"\"Store current value in memory\"\"\"
        try:
            current_value = float(self.display_var.get())
            self.memory.store(current_value)
            messagebox.showinfo(\"Memory\", f\"Stored \x7bcurrent_value\x7d in memory\")
        except ValueError:
            messagebox.showerror(\"Error\", \"Invalid value to store\")

    def memory_recall(self):
        \"\"\"Recall value from memory\"\"\"
        value = self.memory.recall()
        self.current_expression = str(value)
        self.display_var.set(str(value))
        self.result_shown = True

    def memory_clear(self):
        \"\"\"Clear memory\"\"\"
        self.memory.clear()
        messagebox.showinfo(\"Memory\", \"Memory cleared\")"
      else "")
  ++ (if c.Features.Memory || c.Features.History || c.Features.Statistical then
        "

    def create_menu(self):
        \"\"\"Create application menu\"\"\"
        menubar = tk.Menu(self.root)
        self.root.config(menu=menubar)

        # Tools menu
        tools_menu = tk.Menu(menubar, tearoff=0)
        menubar.add_cascade(label=\"Tools\", menu=tools_menu)"
        ++ (if c.Features.Statistical then
              "
        tools_menu.add_command(label=\"Statistics Calculator\", command=self.show_stats_dialog)"
            else "")
        ++ (if c.Features.History then
              "
        tools_menu.add_command(label=\"Show History\", command=self.show_history)
        tools_menu.add_command(label=\"Clear History\", command=self.clear_history)"
            else "")
        ++ "
        tools_menu.add_separator()
        tools_menu.add_command(label=\"About\", command=self.show_about)"
      else "")
  ++ (if c.Features.Statistical then
        "

    def show_stats_dialog(self):
        \"\"\"Show statistics calculator dialog\"\"\"
        data_str = simpledialog.askstring(
            \"Statistics\",
            \"Enter comma-separated numbers:\"
        )
        if data_str:
            try:
                stats = calculate_stats(data_str)
                result = \"\\\\n\".join([f\"\x7bk.title()\x7d: \x7bv\x7d\" for k, v in stats.items()])
                messagebox.showinfo(\"Statistics Results\", result)
            except Exception as e:
                messagebox.showerror(\"Error\", str(e))"
      else "")
  ++ (if c.Features.History then
        "

    def show_history(self):
        \"\"\"Show calculation history\"\"\"
        history = self.history.get_history()
        if not history:
            messagebox.showinfo(\"History\", \"No calculations in history\")
            return

        # Create history window
        hist_window = tk.Toplevel(self.root)
        hist_window.title(\"Calculation History\")
        hist_window.geometry(\"400x300\")

        # Create text widget with scrollbar
        text_frame = ttk.Frame(hist_window)
        text_frame.pack(fill='both', expand=True, padding=10)

        text_widget = tk.Text(text_frame, wrap='word')
        scrollbar = ttk.Scrollbar(text_frame, orient='vertical', command=text_widget.yview)
        text_widget.configure(yscrollcommand=scrollbar.set)

        # Add history entries
        for entry in history:
            text_widget.insert('end', f\"\x7bentry['timestamp']\x7d: \x7bentry['expression']\x7d = \x7bentry['result']\x7d\\\\n\")

        text_widget.config(state='disabled')
        text_widget.pack(side='left', fill='both', expand=True)
        scrollbar.pack(side='right', fill='y')

    def clear_history(self):
        \"\"\"Clear calculation history\"\"\"
        self.history.clear()
        messagebox.showinfo(\"History\", \"History cleared\")"
      else "")
  ++ "

    def apply_theme(self):
        \"\"\"Apply visual theme\"\"\"
        # Configure styles based on theme setting
        style = ttk.Style()"
  ++ (if c.UI.Theme = "dark" then
        "
        # Dark theme
        self.root.configure(bg='#2b2b2b')
        style.configure('TFrame', background='#2b2b2b')
        style.configure('TButton', background='#404040', foreground='white')
        style.configure('TLabel', background='#2b2b2b', foreground='white')"
      else
        "
        # Light theme (default)
        style.configure('TButton', padding=5)")
  ++ "

    def show_about(self):
        \"\"\"Show about dialog\"\"\"
        about_text = f\"\"\"" ++ c.ProjectName ++ "
Version: 1.0.0
Author: " ++ c.Author ++ "

" ++ c.Description ++ "

Generated by Calculator Generator\"\"\"
        messagebox.showinfo(\"About\", about_text)

    def run(self):
        \"\"\"Start the calculator application\"\"\"
        self.root.mainloop()

def main():
    \"\"\"Main application entry point\"\"\"
    calculator = CalculatorGUI()
    calculator.run()

if __name__ == \"__main__\":
    main()"

/-- `prepareGUITemplateData` from `gui_generator.go`: note that, unlike the
CLI path, the `Timestamp` field is never set, so it stays the zero value
`""` — the GUI artifact does not embed the generation time. -/
def prepareGUITemplateData (c : CalculatorConfig) : TemplateData where
  Config := c
  Imports := generateGUIImports c
  Functions := generateGUIFunctions c
  MainContent := generateGUIMainContent c
  Version := "1.0.0"
  Timestamp := ""

/-- `renderGUITemplate` from `gui_generator.go`: same fixed template as the
CLI one except that it ends right after the main content (the GUI main
content carries its own entry-point stanza). -/
def renderGUITemplate (d : TemplateData) : String :=
  "#!/usr/bin/env python3\n\"\"\"\n"
  ++ d.Config.ProjectName ++ "\n"
  ++ d.Config.Description
  ++ "\n\nGenerated by Calculator Generator\nAuthor: "
  ++ d.Config.Author
  ++ "\nVersion: " ++ d.Version
  ++ "\nGenerated: " ++ d.Timestamp
  ++ "\n\"\"\"\n\n"
  ++ strJoin (d.Imports.map (fun s => s ++ "\n"))
  ++ "\n"
  ++ strJoin (d.Functions.map (fun s => "\n" ++ s ++ "\n\n"))
  ++ "\n\n"
  ++ d.MainContent
  ++ "\n"

/-- `GenerateGUICalculator` from `gui_generator.go`. -/
def GenerateGUICalculator (c : CalculatorConfig) : String :=
  renderGUITemplate (prepareGUITemplateData c)

/-- `Generate` from the source. File writes are modelled by the returned
pair: the artifact (calculator script) text and the optional
`requirements.txt` content. A validation failure aborts before any
fragment generation, rendering or write, returning the error. -/
def Generate (c : CalculatorConfig) (now : String) :
    Except ValidationError (String × Option String) :=
  match validateConfig c with
  | some e => .error e
  | none =>
    let data := prepareTemplateData c now
    let content :=
      if c.UI.Style = "gui" then GenerateGUICalculator c
      else renderTemplate data
    .ok (content, generateRequirements c)

/-- Split a character list at every occurrence of `sep`; models Go's
`strings.Split` for a one-character separator (structurally recursive so
that it evaluates in the kernel; `String.splitOn` does not reduce). -/
def splitOnChar (sep : Char) : List Char → List (List Char)
  | [] => [[]]
  | c :: rest =>
    if c = sep then [] :: splitOnChar sep rest
    else
      match splitOnChar sep rest with
      | [] => [[c]]
      | h :: t => (c :: h) :: t

/-- Go's `strings.Split(s, ",")`. -/
def splitComma (s : String) : List String :=
  (splitOnChar ',' s.data).map String.mk

/-- Go's `strings.ToLower` (character-wise lowering, as in `String.toLower`,
written structurally so that it evaluates in the kernel). -/
def toLowerStr (s : String) : String :=
  ⟨s.data.map Char.toLower⟩

/-- Go's `strings.TrimSpace`: drop whitespace from both ends. -/
def trimStr (s : String) : String :=
  ⟨((s.data.dropWhile Char.isWhitespace).reverse.dropWhile
      Char.isWhitespace).reverse⟩

/-- Normalization Go applies to each comma-separated token:
`strings.TrimSpace(strings.ToLower(tok))`. -/
def normalizeToken (s : String) : String :=
  trimStr (toLowerStr s)

/-- One iteration of the `applyLibrariesFromFlags` switch on an
already-normalized token. -/
def applyLibraryToken (c : CalculatorConfig) (lib : String) :
    Except String CalculatorConfig :=
  match lib with
  | "numpy" => .ok { c with Libraries.UseNumpy := true }
  | "pandas" => .ok { c with Libraries.UsePandas := true }
  | "scipy" => .ok { c with Libraries.UseScipy := true }
  | "sympy" => .ok { c with Libraries.UseSympy := true }
  | "plotly" => .ok { c with Libraries.UsePlotly := true }
  | "math" => .ok { c with Libraries.UseMath := true }
  | _ => .error ("unknown library: " ++ lib)

/-- `applyLibrariesFromFlags` from `cmd/generate.go`: split the flag value on
commas, lower-case and trim each token, and apply the switch; an unknown
name aborts with an error. -/
def applyLibrariesFromFlags (librariesStr : String) (c : CalculatorConfig) :
    Except String CalculatorConfig :=
  if librariesStr = "" then .ok c
  else
    (splitComma librariesStr).foldlM
      (fun c lib => applyLibraryToken c (normalizeToken lib)) c

/-- One iteration of the `applyFeaturesFromFlags` switch on an
already-normalized token; each case sets the feature flag and the library
flags the feature requires. -/
def applyFeatureToken (c : CalculatorConfig) (feature : String) :
    Except String CalculatorConfig :=
  match feature with
  | "basic-arithmetic" | "arithmetic" =>
    .ok { c with Features.BasicArithmetic := true }
  | "trigonometric" | "trig" =>
    .ok { c with Features.Trigonometric := true, Libraries.UseMath := true }
  | "logarithmic" | "log" =>
    .ok { c with Features.Logarithmic := true, Libraries.UseMath := true }
  | "exponential" | "exp" =>
    .ok { c with Features.Exponential := true, Libraries.UseMath := true }
  | "statistical" | "stats" =>
    .ok { c with Features.Statistical := true, Libraries.UseNumpy := true }
  | "linear-algebra" | "linalg" =>
    .ok { c with Features.LinearAlgebra := true, Libraries.UseNumpy := true }
  | "calculus" =>
    .ok { c with Features.Calculus := true, Libraries.UseSympy := true }
  | "plotting" | "plot" =>
    .ok { c with Features.Plotting := true, Libraries.UsePlotly := true }
  | "unit-conversion" | "units" =>
    .ok { c with Features.UnitConversion := true }
  | "complex-numbers" | "complex" =>
    .ok { c with Features.ComplexNumbers := true }
  | "equation-solver" | "solver" =>
    .ok { c with Features.EquationSolver := true, Libraries.UseSympy := true }
  | "matrix-operations" | "matrix" =>
    .ok { c with Features.MatrixOperations := true, Libraries.UseNumpy := true }
  | "data-analysis" | "data" =>
    .ok { c with Features.DataAnalysis := true, Libraries.UsePandas := true,
                 Libraries.UseNumpy := true }
  | "graphing" | "graph" =>
    .ok { c with Features.Graphing := true, Libraries.UsePlotly := true }
  | "programming" | "prog" =>
    .ok { c with Features.Programming := true }
  | "memory" | "mem" =>
    .ok { c with Features.Memory := true }
  | "history" | "hist" =>
    .ok { c with Features.History := true }
  | _ => .error ("unknown feature: " ++ feature)

/-- `applyFeaturesFromFlags` from `cmd/generate.go`. -/
def applyFeaturesFromFlags (featuresStr : String) (c : CalculatorConfig) :
    Except String CalculatorConfig :=
  if featuresStr = "" then .ok c
  else
    (splitComma featuresStr).foldlM
      (fun c feature => applyFeatureToken c (normalizeToken feature)) c

/-- The resolution step of `runGenerate`: apply the library flags, then the
feature flags (the spec's `DependencyResolver`). -/
def resolveConfig (librariesStr featuresStr : String) (c : CalculatorConfig) :
    Except String CalculatorConfig := do
  let c ← applyLibrariesFromFlags librariesStr c
  applyFeaturesFromFlags featuresStr c

/-- Proof-level enumeration of the boolean library/feature flags that the
resolver can switch on. -/
inductive Flag
  | useNumpy | usePandas | useScipy | useMath | useSympy | usePlotly
  | basicArithmetic | history | memory
  | trigonometric | logarithmic | exponential
  | statistical | linearAlgebra | calculus | plotting
  | unitConversion | complexNumbers
  | equationSolver | matrixOperations | dataAnalysis | graphing | programming
deriving DecidableEq

/-- Read one resolver-controlled boolean flag of a configuration. -/
def getFlag : Flag → CalculatorConfig → Bool
  | .useNumpy, c => c.Libraries.UseNumpy
  | .usePandas, c => c.Libraries.UsePandas
  | .useScipy, c => c.Libraries.UseScipy
  | .useMath, c => c.Libraries.UseMath
  | .useSympy, c => c.Libraries.UseSympy
  | .usePlotly, c => c.Libraries.UsePlotly
  | .basicArithmetic, c => c.Features.BasicArithmetic
  | .history, c => c.Features.History
  | .memory, c => c.Features.Memory
  | .trigonometric, c => c.Features.Trigonometric
  | .logarithmic, c => c.Features.Logarithmic
  | .exponential, c => c.Features.Exponential
  | .statistical, c => c.Features.Statistical
  | .linearAlgebra, c => c.Features.LinearAlgebra
  | .calculus, c => c.Features.Calculus
  | .plotting, c => c.Features.Plotting
  | .unitConversion, c => c.Features.UnitConversion
  | .complexNumbers, c => c.Features.ComplexNumbers
  | .equationSolver, c => c.Features.EquationSolver
  | .matrixOperations, c => c.Features.MatrixOperations
  | .dataAnalysis, c => c.Features.DataAnalysis
  | .graphing, c => c.Features.Graphing
  | .programming, c => c.Features.Programming

/-- Switch one resolver-controlled boolean flag of a configuration on. -/
def setFlag : Flag → CalculatorConfig → CalculatorConfig
  | .useNumpy, c => { c with Libraries.UseNumpy := true }
  | .usePandas, c => { c with Libraries.UsePandas := true }
  | .useScipy, c => { c with Libraries.UseScipy := true }
  | .useMath, c => { c with Libraries.UseMath := true }
  | .useSympy, c => { c with Libraries.UseSympy := true }
  | .usePlotly, c => { c with Libraries.UsePlotly := true }
  | .basicArithmetic, c => { c with Features.BasicArithmetic := true }
  | .history, c => { c with Features.History := true }
  | .memory, c => { c with Features.Memory := true }
  | .trigonometric, c => { c with Features.Trigonometric := true }
  | .logarithmic, c => { c with Features.Logarithmic := true }
  | .exponential, c => { c with Features.Exponential := true }
  | .statistical, c => { c with Features.Statistical := true }
  | .linearAlgebra, c => { c with Features.LinearAlgebra := true }
  | .calculus, c => { c with Features.Calculus := true }
  | .plotting, c => { c with Features.Plotting := true }
  | .unitConversion, c => { c with Features.UnitConversion := true }
  | .complexNumbers, c => { c with Features.ComplexNumbers := true }
  | .equationSolver, c => { c with Features.EquationSolver := true }
  | .matrixOperations, c => { c with Features.MatrixOperations := true }
  | .dataAnalysis, c => { c with Features.DataAnalysis := true }
  | .graphing, c => { c with Features.Graphing := true }
  | .programming, c => { c with Features.Programming := true }

/-- Switch a list of flags on, left to right. -/
def setFlags (fs : List Flag) (c : CalculatorConfig) : CalculatorConfig :=
  fs.foldl (fun c f => setFlag f c) c

/-- The flags a normalized library token switches on (`none` = unknown). -/
def libTokenFlags : String → Option (List Flag)
  | "numpy" => some [.useNumpy]
  | "pandas" => some [.usePandas]
  | "scipy" => some [.useScipy]
  | "sympy" => some [.useSympy]
  | "plotly" => some [.usePlotly]
  | "math" => some [.useMath]
  | _ => none

/-- The flags a normalized feature token switches on (`none` = unknown):
the feature's own flag followed by its entailed library flags, in the
order the source assigns them. -/
def featTokenFlags : String → Option (List Flag)
  | "basic-arithmetic" | "arithmetic" => some [.basicArithmetic]
  | "trigonometric" | "trig" => some [.trigonometric, .useMath]
  | "logarithmic" | "log" => some [.logarithmic, .useMath]
  | "exponential" | "exp" => some [.exponential, .useMath]
  | "statistical" | "stats" => some [.statistical, .useNumpy]
  | "linear-algebra" | "linalg" => some [.linearAlgebra, .useNumpy]
  | "calculus" => some [.calculus, .useSympy]
  | "plotting" | "plot" => some [.plotting, .usePlotly]
  | "unit-conversion" | "units" => some [.unitConversion]
  | "complex-numbers" | "complex" => some [.complexNumbers]
  | "equation-solver" | "solver" => some [.equationSolver, .useSympy]
  | "matrix-operations" | "matrix" => some [.matrixOperations, .useNumpy]
  | "data-analysis" | "data" => some [.dataAnalysis, .usePandas, .useNumpy]
  | "graphing" | "graph" => some [.graphing, .usePlotly]
  | "programming" | "prog" => some [.programming]
  | "memory" | "mem" => some [.memory]
  | "history" | "hist" => some [.history]
  | _ => none

/-- The concatenated flag lists of a token list, `none` when any token is
unknown to `tokFlags`; each token is normalized the way the source
normalizes it. -/
def tokensFlags (tokFlags : String → Option (List Flag)) :
    List String → Option (List Flag)
  | [] => some []
  | t :: ts => do
    let fs ← tokFlags (normalizeToken t)
    let rest ← tokensFlags tokFlags ts
    pure (fs ++ rest)

/-- The flag list denoted by a whole comma-separated flag string (empty
string = no change, as in the source's early return). -/
def strFlags (tokFlags : String → Option (List Flag)) (s : String) :
    Option (List Flag) :=
  if s = "" then some [] else tokensFlags tokFlags (splitComma s)

/-- Pointwise order capturing "purely additive": every resolver-controlled
flag that is on stays on, and every non-flag field is unchanged. -/
def configLe (a b : CalculatorConfig) : Prop :=
  (∀ f : Flag, getFlag f a = true → getFlag f b = true) ∧
  a.CalcType = b.CalcType ∧ a.OutputFile = b.OutputFile ∧
  a.ProjectName = b.ProjectName ∧ a.Author = b.Author ∧
  a.Description = b.Description ∧ a.Interactive = b.Interactive ∧ a.UI = b.UI

/-- The fragment `piece` occurs verbatim inside the artifact `script`. -/
def scriptHas (script piece : String) : Prop :=
  piece.data <:+: script.data

/-- The full CLI artifact text for a configuration and a clock reading. -/
def cliScript (c : CalculatorConfig) (now : String) : String :=
  renderTemplate (prepareTemplateData c now)

/-- Executable substring check: does `need` occur as a contiguous block of
`hay`? Scans every suffix of `hay` for `need` as a prefix. -/
def containsSub (hay need : List Char) : Bool :=
  match hay with
  | [] => need.isEmpty
  | _ :: t => need.isPrefixOf hay || containsSub t need

lemma scriptHas_append_right {a p : String} (h : scriptHas a p) (b : String) :
    scriptHas (a ++ b) p := by
  unfold scriptHas at *
  rw [String.data_append]
  exact h.trans (List.prefix_append a.data b.data).isInfix

lemma scriptHas_append_left {b p : String} (a : String) (h : scriptHas b p) :
    scriptHas (a ++ b) p := by
  unfold scriptHas at *
  rw [String.data_append]
  exact h.trans (List.suffix_append a.data b.data).isInfix

lemma scriptHas_strJoin_of_mem {s : String} :
    ∀ {l : List String}, s ∈ l → scriptHas (strJoin l) s := by
  intro l h
  induction l with
  | nil => cases h
  | cons a t ih =>
    rcases List.mem_cons.mp h with rfl | hmem
    · exact scriptHas_append_right (List.infix_refl s.data) (strJoin t)
    · exact scriptHas_append_left a (ih hmem)

lemma scriptHas_weaken {s p q : String} (h : scriptHas s p)
    (h' : q.data <:+: p.data) : scriptHas s q :=
  h'.trans h

/-- Every import line occurs verbatim in the rendered CLI template. -/
lemma renderTemplate_has_import {d : TemplateData} {x : String}
    (h : x ∈ d.Imports) : scriptHas (renderTemplate d) x := by
  unfold renderTemplate
  refine scriptHas_append_right (scriptHas_append_right (scriptHas_append_right
    (scriptHas_append_right (scriptHas_append_right (scriptHas_append_left _ ?_)
      _) _) _) _) _
  refine scriptHas_weaken (s := strJoin (d.Imports.map (fun s => s ++ "\n")))
    (p := x ++ "\n") ?_ ?_
  · exact scriptHas_strJoin_of_mem (List.mem_map_of_mem _ h)
  · rw [String.data_append]
    exact (List.prefix_append x.data _).isInfix

/-- Every function fragment occurs verbatim in the rendered CLI template. -/
lemma renderTemplate_has_function {d : TemplateData} {x : String}
    (h : x ∈ d.Functions) : scriptHas (renderTemplate d) x := by
  unfold renderTemplate
  refine scriptHas_append_right (scriptHas_append_right (scriptHas_append_right
    (scriptHas_append_left _ ?_) _) _) _
  refine scriptHas_weaken (s := strJoin (d.Functions.map (fun s => "\n" ++ s ++ "\n\n")))
    (p := "\n" ++ x ++ "\n\n") ?_ ?_
  · exact scriptHas_strJoin_of_mem (List.mem_map_of_mem _ h)
  · rw [String.data_append, String.data_append]
    exact List.infix_append _ _ _

lemma getFlag_setFlag (f g : Flag) (c : CalculatorConfig) :
    getFlag g (setFlag f c) = if g = f then true else getFlag g c := by
  cases f <;> cases g <;> rfl

lemma setFlag_comm (f g : Flag) (c : CalculatorConfig) :
    setFlag f (setFlag g c) = setFlag g (setFlag f c) := by
  cases f <;> cases g <;> rfl

lemma setFlag_idem (f : Flag) (c : CalculatorConfig) :
    setFlag f (setFlag f c) = setFlag f c := by
  cases f <;> rfl

lemma configLe_refl (c : CalculatorConfig) : configLe c c :=
  ⟨fun _ h => h, rfl, rfl, rfl, rfl, rfl, rfl, rfl⟩

lemma configLe_trans {a b c : CalculatorConfig}
    (h₁ : configLe a b) (h₂ : configLe b c) : configLe a c := by
  obtain ⟨hf, e1, e2, e3, e4, e5, e6, e7⟩ := h₁
  obtain ⟨gf, g1, g2, g3, g4, g5, g6, g7⟩ := h₂
  exact ⟨fun f hx => gf f (hf f hx), e1.trans g1, e2.trans g2, e3.trans g3,
    e4.trans g4, e5.trans g5, e6.trans g6, e7.trans g7⟩

lemma configLe_setFlag (f : Flag) (c : CalculatorConfig) :
    configLe c (setFlag f c) := by
  refine ⟨?_, ?_⟩
  · intro g hg
    rw [getFlag_setFlag]
    split
    · rfl
    · exact hg
  · cases f <;> exact ⟨rfl, rfl, rfl, rfl, rfl, rfl, rfl⟩

lemma setFlags_cons (f : Flag) (fs : List Flag) (c : CalculatorConfig) :
    setFlags (f :: fs) c = setFlags fs (setFlag f c) := rfl

lemma configLe_setFlags (fs : List Flag) (c : CalculatorConfig) :
    configLe c (setFlags fs c) := by
  induction fs generalizing c with
  | nil => exact configLe_refl c
  | cons f fs ih =>
    rw [setFlags_cons]
    exact configLe_trans (configLe_setFlag f c) (ih (setFlag f c))

lemma setFlag_setFlags_comm (f : Flag) (fs : List Flag) (c : CalculatorConfig) :
    setFlag f (setFlags fs c) = setFlags fs (setFlag f c) := by
  induction fs generalizing c with
  | nil => rfl
  | cons g fs ih =>
    rw [setFlags_cons, setFlags_cons, ih, setFlag_comm]

lemma setFlags_append (a b : List Flag) (c : CalculatorConfig) :
    setFlags (a ++ b) c = setFlags b (setFlags a c) := by
  simp [setFlags, List.foldl_append]

lemma setFlags_idem (fs : List Flag) (c : CalculatorConfig) :
    setFlags fs (setFlags fs c) = setFlags fs c := by
  induction fs generalizing c with
  | nil => rfl
  | cons f fs ih =>
    rw [setFlags_cons, setFlags_cons, setFlag_setFlags_comm f fs (setFlag f c),
      setFlag_idem]
    exact ih (setFlag f c)

lemma applyLibraryToken_char (c : CalculatorConfig) (t : String) :
    applyLibraryToken c t =
      match libTokenFlags t with
      | some fs => .ok (setFlags fs c)
      | none => .error ("unknown library: " ++ t) := by
  unfold applyLibraryToken libTokenFlags
  split <;> rfl

lemma applyFeatureToken_char (c : CalculatorConfig) (t : String) :
    applyFeatureToken c t =
      match featTokenFlags t with
      | some fs => .ok (setFlags fs c)
      | none => .error ("unknown feature: " ++ t) := by
  unfold applyFeatureToken featTokenFlags
  split <;> rfl

lemma tokensFold_ok_of_flags
    (tok : CalculatorConfig → String → Except String CalculatorConfig)
    (tf : String → Option (List Flag)) (err : String → String)
    (hchar : ∀ c t, tok c t =
      match tf t with
      | some fs => .ok (setFlags fs c)
      | none => .error (err t)) :
    ∀ (ts : List String) (c : CalculatorConfig) (fs : List Flag),
      tokensFlags tf ts = some fs →
      ts.foldlM (fun c t => tok c (normalizeToken t)) c =
        .ok (setFlags fs c) := by
  intro ts
  induction ts with
  | nil =>
    intro c fs h
    simp only [tokensFlags, Option.some.injEq] at h
    subst h
    rfl
  | cons t ts ih =>
    intro c fs h
    simp only [tokensFlags, Option.bind_eq_bind, Option.bind_eq_some,
      Option.pure_def, Option.some.injEq] at h
    obtain ⟨fs₁, h1, rest, h2, rfl⟩ := h
    rw [List.foldlM_cons, hchar c (normalizeToken t), h1]
    simp only [Bind.bind, Except.bind]
    rw [setFlags_append]
    exact ih (setFlags fs₁ c) rest h2

lemma tokensFold_flags_of_ok
    (tok : CalculatorConfig → String → Except String CalculatorConfig)
    (tf : String → Option (List Flag)) (err : String → String)
    (hchar : ∀ c t, tok c t =
      match tf t with
      | some fs => .ok (setFlags fs c)
      | none => .error (err t)) :
    ∀ (ts : List String) (c c' : CalculatorConfig),
      ts.foldlM (fun c t => tok c (normalizeToken t)) c = .ok c' →
      ∃ fs, tokensFlags tf ts = some fs ∧ c' = setFlags fs c := by
  intro ts
  induction ts with
  | nil =>
    intro c c' h
    simp only [List.foldlM_nil] at h
    exact ⟨[], rfl, (Except.ok.inj h).symm⟩
  | cons t ts ih =>
    intro c c' h
    rw [List.foldlM_cons, hchar c (normalizeToken t)] at h
    cases hflags : tf (normalizeToken t) with
    | none =>
      rw [hflags] at h
      simp only [Bind.bind, Except.bind] at h
      cases h
    | some fs₁ =>
      rw [hflags] at h
      simp only [Bind.bind, Except.bind] at h
      obtain ⟨rest, hrest, hceq⟩ := ih (setFlags fs₁ c) c' h
      refine ⟨fs₁ ++ rest, ?_, ?_⟩
      · simp [tokensFlags, hflags, hrest]
      · rw [hceq, setFlags_append]

lemma applyLibrariesFromFlags_ok_iff (s : String) (c c' : CalculatorConfig) :
    applyLibrariesFromFlags s c = .ok c' ↔
      ∃ fs, strFlags libTokenFlags s = some fs ∧ c' = setFlags fs c := by
  unfold applyLibrariesFromFlags strFlags
  by_cases hs : s = ""
  · simp only [if_pos hs]
    constructor
    · intro h
      exact ⟨[], rfl, (Except.ok.inj h).symm⟩
    · rintro ⟨fs, hfs, rfl⟩
      cases Option.some.inj hfs
      rfl
  · simp only [if_neg hs]
    constructor
    · intro h
      exact tokensFold_flags_of_ok applyLibraryToken libTokenFlags
        (fun t => "unknown library: " ++ t) applyLibraryToken_char
        (splitComma s) c c' h
    · rintro ⟨fs, hfs, rfl⟩
      exact tokensFold_ok_of_flags applyLibraryToken libTokenFlags
        (fun t => "unknown library: " ++ t) applyLibraryToken_char
        (splitComma s) c fs hfs

lemma applyFeaturesFromFlags_ok_iff (s : String) (c c' : CalculatorConfig) :
    applyFeaturesFromFlags s c = .ok c' ↔
      ∃ fs, strFlags featTokenFlags s = some fs ∧ c' = setFlags fs c := by
  unfold applyFeaturesFromFlags strFlags
  by_cases hs : s = ""
  · simp only [if_pos hs]
    constructor
    · intro h
      exact ⟨[], rfl, (Except.ok.inj h).symm⟩
    · rintro ⟨fs, hfs, rfl⟩
      cases Option.some.inj hfs
      rfl
  · simp only [if_neg hs]
    constructor
    · intro h
      exact tokensFold_flags_of_ok applyFeatureToken featTokenFlags
        (fun t => "unknown feature: " ++ t) applyFeatureToken_char
        (splitComma s) c c' h
    · rintro ⟨fs, hfs, rfl⟩
      exact tokensFold_ok_of_flags applyFeatureToken featTokenFlags
        (fun t => "unknown feature: " ++ t) applyFeatureToken_char
        (splitComma s) c fs hfs

lemma containsSub_true_iff (hay need : List Char) :
    containsSub hay need = true ↔ need <:+: hay := by
  induction hay with
  | nil => simp [containsSub, List.infix_nil, List.isEmpty_iff]
  | cons h t ih =>
    simp [containsSub, Bool.or_eq_true, List.isPrefixOf_iff_prefix, ih,
      List.infix_cons_iff]

lemma not_infix_of_containsSub_false {hay need : List Char}
    (h : containsSub hay need = false) : ¬ need <:+: hay := by
  intro hinf
  rw [← containsSub_true_iff] at hinf
  rw [h] at hinf
  cases hinf

/-- Splitting an infix check across an append: an occurrence either lies in
the left part extended by the first `|n| - 1` characters of the right part,
or lies wholly in the right part. -/
lemma infix_append_chunk {n : List Char} (a b : List Char) (hn : n ≠ []) :
    n <:+: a ++ b ↔
      (n <:+: a ++ b.take (n.length - 1) ∨ n <:+: b) := by
  constructor
  · rintro ⟨s, t, hst⟩
    by_cases hs : a.length ≤ s.length
    · right
      have hpre : s <+: a ++ b := ⟨n ++ t, by simpa [List.append_assoc] using hst⟩
      obtain ⟨s', rfl⟩ :=
        List.prefix_of_prefix_length_le (List.prefix_append a b) hpre hs
      have hb0 : a ++ (s' ++ (n ++ t)) = a ++ b := by
        simpa [List.append_assoc] using hst
      have hb : s' ++ (n ++ t) = b := List.append_cancel_left hb0
      exact ⟨s', t, by simpa [List.append_assoc] using hb⟩
    · left
      push_neg at hs
      have hsn : s ++ n <+: a ++ b := ⟨t, by simpa [List.append_assoc] using hst⟩
      have htake : s ++ n = (a ++ b).take (s.length + n.length) := by
        have h0 := List.prefix_iff_eq_take.mp hsn
        simpa [List.length_append] using h0
      have hn1 : 1 ≤ n.length := List.length_pos.mpr hn
      have h1 : n <:+: (a ++ b).take (s.length + n.length) := by
        rw [← htake]
        exact ⟨s, [], by simp⟩
      have h2 : (a ++ b).take (s.length + n.length) <+:
          (a ++ b).take (a.length + (n.length - 1)) :=
        List.take_prefix_take_left _ (by omega)
      have h3 : (a ++ b).take (a.length + (n.length - 1)) =
          a ++ b.take (n.length - 1) := List.take_append _
      rw [← h3]
      exact h1.trans h2.isInfix
  · rintro (h | h)
    · exact h.trans
        (((List.prefix_append_right_inj a).mpr (List.take_prefix _ b)).isInfix)
    · exact h.trans (List.suffix_append a b).isInfix

/-- The rendered CLI artifact determines the embedded timestamp: two
renders for the same configuration agree iff the clock readings agree. -/
lemma cliScript_inj_timestamp (c : CalculatorConfig) (t₁ t₂ : String) :
    cliScript c t₁ = cliScript c t₂ ↔ t₁ = t₂ := by
  constructor
  · intro h
    have hd := congrArg String.data h
    simp only [cliScript, renderTemplate, prepareTemplateData,
      String.data_append, List.append_assoc] at hd
    have h1 := List.append_cancel_left hd
    have h2 := List.append_cancel_left h1
    have h3 := List.append_cancel_left h2
    have h4 := List.append_cancel_left h3
    have h5 := List.append_cancel_left h4
    have h6 := List.append_cancel_left h5
    have h7 := List.append_cancel_left h6
    have h8 := List.append_cancel_left h7
    have h9 := List.append_cancel_left h8
    exact String.ext (List.append_cancel_right h9)
  · rintro rfl
    rfl

/-- C6: with output path and project name non-empty, validation fails with
the precision out-of-range error exactly when the precision lies outside
[1,20]; in particular 0 and 21 fail and 1 and 20 succeed. -/
theorem precision_validation_boundaries (c : CalculatorConfig)
    (hout : c.OutputFile ≠ "") (hname : c.ProjectName ≠ "") :
    ((c.UI.Precision < 1 ∨ 20 < c.UI.Precision) →
      validateConfig c =
        some ⟨"precision", "precision must be between 1 and 20"⟩) ∧
    (1 ≤ c.UI.Precision → c.UI.Precision ≤ 20 → validateConfig c = none) := by
  unfold validateConfig
  rw [if_neg hout, if_neg hname]
  constructor
  · intro h
    rw [if_pos]
    exact h
  · intro h1 h2
    rw [if_neg]
    omega

/-- Witness for C6 at the four boundary precisions 0, 21, 1 and 20. -/
theorem precision_validation_boundaries_witness :
    validateConfig { GetDefaultConfig with UI.Precision := 0 } =
      some ⟨"precision", "precision must be between 1 and 20"⟩ ∧
    validateConfig { GetDefaultConfig with UI.Precision := 21 } =
      some ⟨"precision", "precision must be between 1 and 20"⟩ ∧
    validateConfig { GetDefaultConfig with UI.Precision := 1 } = none ∧
    validateConfig { GetDefaultConfig with UI.Precision := 20 } = none :=
  ⟨(precision_validation_boundaries _ (by decide) (by decide)).1 (by decide),
   (precision_validation_boundaries _ (by decide) (by decide)).1 (by decide),
   (precision_validation_boundaries _ (by decide) (by decide)).2
     (by decide) (by decide),
   (precision_validation_boundaries _ (by decide) (by decide)).2
     (by decide) (by decide)⟩

/-- C7: `Generate` fails fast: a configuration that fails validation makes
`Generate` return exactly the validation error, producing neither an
artifact text nor a manifest text (the `.ok` payload), and conversely any
produced output implies the configuration validated. -/
theorem generate_fails_fast (c : CalculatorConfig) (now : String) :
    (∀ e, validateConfig c = some e → Generate c now = Except.error e) ∧
    (∀ out, Generate c now = Except.ok out → validateConfig c = none) := by
  unfold Generate
  cases h : validateConfig c <;> simp

/-- Witness for C7: a configuration with an empty output path aborts with
the `output_file` validation error and yields no output pair. -/
theorem generate_fails_fast_witness :
    Generate { GetDefaultConfig with OutputFile := "" } "2024-01-01 00:00:00" =
      Except.error ⟨"output_file", "output file cannot be empty"⟩ :=
  (generate_fails_fast _ _).1 _ (by decide)

/-- C2 counterexample: a GUI-style configuration with no third-party library
flag enabled still produces a requirements manifest (holding only the
tkinter comment), contradicting "no manifest file is produced when no
third-party library is enabled". -/
theorem requirements_without_external_libraries :
    hasExternalLibraries { GetDefaultConfig with UI.Style := "gui" } = false ∧
    generateRequirements { GetDefaultConfig with UI.Style := "gui" } =
      some "# tkinter (included with Python)\n" := by
  constructor <;> decide

/-- C2 amended: a requirements manifest is produced iff a third-party
library flag is enabled, or the plotting feature is enabled, or the UI
style is GUI; it contains one pinned line per enabled third-party library,
a plotly pin also when the plotting feature alone is enabled, and the
tkinter comment exactly when the UI style is GUI. -/
theorem requirements_characterization (c : CalculatorConfig) :
    ((generateRequirements c).isSome ↔
      (hasExternalLibraries c = true ∨ c.Features.Plotting = true ∨
        c.UI.Style = "gui")) ∧
    ("numpy>=1.21.0" ∈ requirementsList c ↔ c.Libraries.UseNumpy = true) ∧
    ("pandas>=1.3.0" ∈ requirementsList c ↔ c.Libraries.UsePandas = true) ∧
    ("scipy>=1.7.0" ∈ requirementsList c ↔ c.Libraries.UseScipy = true) ∧
    ("sympy>=1.9.0" ∈ requirementsList c ↔ c.Libraries.UseSympy = true) ∧
    ("plotly>=5.0.0" ∈ requirementsList c ↔
      (c.Libraries.UsePlotly = true ∨ c.Features.Plotting = true)) ∧
    ("# tkinter (included with Python)" ∈ requirementsList c ↔
      c.UI.Style = "gui") := by
  obtain ⟨ct, outf, pn, au, de, it, ⟨n, p, s, m, sy, pl⟩, F, U⟩ := c
  by_cases hst : U.Style = "gui" <;>
    cases n <;> cases p <;> cases s <;> cases sy <;> cases pl <;>
      cases hpl : F.Plotting <;>
        simp_all [requirementsList, generateRequirements, hasExternalLibraries]

/-- C8: whenever the plotly library flag or the plotting feature is enabled,
the generated script gets both plotly import lines and the manifest gets
the plotly pin — the two flags are interchangeable for plotly inclusion. -/
theorem plotly_flag_feature_equivalence (c : CalculatorConfig)
    (h : c.Libraries.UsePlotly = true ∨ c.Features.Plotting = true) :
    "import plotly.graph_objects as go" ∈ generateImports c ∧
    "import plotly.express as px" ∈ generateImports c ∧
    "plotly>=5.0.0" ∈ requirementsList c := by
  have hb : (c.Libraries.UsePlotly || c.Features.Plotting) = true := by
    rcases h with h | h <;> simp [h]
  refine ⟨?_, ?_, ?_⟩ <;>
    simp [generateImports, requirementsList, hb, List.mem_append]

/-- Witness for C8 at the claim's two configurations: the plotly library
flag alone, and the plotting feature alone. -/
theorem plotly_flag_feature_equivalence_witness :
    ("import plotly.graph_objects as go" ∈
        generateImports { GetDefaultConfig with Libraries.UsePlotly := true } ∧
      "import plotly.express as px" ∈
        generateImports { GetDefaultConfig with Libraries.UsePlotly := true } ∧
      "plotly>=5.0.0" ∈
        requirementsList { GetDefaultConfig with Libraries.UsePlotly := true }) ∧
    ("import plotly.graph_objects as go" ∈
        generateImports { GetDefaultConfig with Features.Plotting := true } ∧
      "import plotly.express as px" ∈
        generateImports { GetDefaultConfig with Features.Plotting := true } ∧
      "plotly>=5.0.0" ∈
        requirementsList { GetDefaultConfig with Features.Plotting := true }) :=
  ⟨plotly_flag_feature_equivalence _ (Or.inl rfl),
   plotly_flag_feature_equivalence _ (Or.inr rfl)⟩

/-- C3: for the scientific configuration (scientific type, everything else
at its defaults), `Generate` renders the CLI template, and the resulting
script imports numpy, scipy, sympy and math and contains the trigonometric,
logarithmic and statistical function definitions. -/
theorem scientific_default_script_contents (now : String) :
    Generate GetScientificConfig now =
      Except.ok (cliScript GetScientificConfig now,
        generateRequirements GetScientificConfig) ∧
    scriptHas (cliScript GetScientificConfig now) "import numpy as np" ∧
    scriptHas (cliScript GetScientificConfig now) "import scipy as sp" ∧
    scriptHas (cliScript GetScientificConfig now) "import sympy as sym" ∧
    scriptHas (cliScript GetScientificConfig now) "import math" ∧
    (∀ f ∈ generateTrigonometricFunctions,
      scriptHas (cliScript GetScientificConfig now) f) ∧
    (∀ f ∈ generateLogarithmicFunctions,
      scriptHas (cliScript GetScientificConfig now) f) ∧
    (∀ f ∈ generateStatisticalFunctions,
      scriptHas (cliScript GetScientificConfig now) f) := by
  refine ⟨rfl, ?_, ?_, ?_, ?_, ?_, ?_, ?_⟩
  · exact renderTemplate_has_import
      (show "import numpy as np" ∈ generateImports GetScientificConfig by decide)
  · exact renderTemplate_has_import
      (show "import scipy as sp" ∈ generateImports GetScientificConfig by decide)
  · exact renderTemplate_has_import
      (show "import sympy as sym" ∈ generateImports GetScientificConfig by decide)
  · exact renderTemplate_has_import
      (show "import math" ∈ generateImports GetScientificConfig by decide)
  · intro f hf
    exact renderTemplate_has_function
      (show f ∈ generateFunctions GetScientificConfig from
        (by decide :
          generateTrigonometricFunctions ⊆
            generateFunctions GetScientificConfig) hf)
  · intro f hf
    exact renderTemplate_has_function
      (show f ∈ generateFunctions GetScientificConfig from
        (by decide :
          generateLogarithmicFunctions ⊆
            generateFunctions GetScientificConfig) hf)
  · intro f hf
    exact renderTemplate_has_function
      (show f ∈ generateFunctions GetScientificConfig from
        (by decide :
          generateStatisticalFunctions ⊆
            generateFunctions GetScientificConfig) hf)

/-- Witness for C3 at the fixed clock reading "2006-01-02 15:04:05" and the
sine fragment: the hypotheses of the fragment conjuncts are discharged at a
concrete trigonometric fragment. -/
theorem scientific_default_script_contents_witness :
    scriptHas (cliScript GetScientificConfig "2006-01-02 15:04:05")
      "def sin(x, angle_unit=\"degrees\"):
    \"\"\"Sine function\"\"\"
    if angle_unit == \"degrees\":
        x = math.radians(x)
    return math.sin(x)" :=
  (scientific_default_script_contents "2006-01-02 15:04:05").2.2.2.2.2.1
    _ (by decide)

/-- C9: for the basic configuration with the memory feature enabled, the
generated script contains the memory-management class and the
`mem`-prefixed command branch of the interactive loop, and it contains no
numpy import (checked on the whole artifact at the format's reference
timestamp, and on the import segment for every clock reading). -/
theorem basic_memory_scenario (now : String) :
    scriptHas (cliScript { GetDefaultConfig with Features.Memory := true } now)
      "class Memory:\n    \"\"\"Calculator memory functionality\"\"\"" ∧
    scriptHas (cliScript { GetDefaultConfig with Features.Memory := true } now)
      "elif user_input.lower().startswith('mem'):" ∧
    "import numpy as np" ∉
      generateImports { GetDefaultConfig with Features.Memory := true } ∧
    ¬ scriptHas
        (cliScript { GetDefaultConfig with Features.Memory := true }
          "2006-01-02 15:04:05")
        "import numpy" := by
  refine ⟨?_, ?_, by decide, ?_⟩
  · refine scriptHas_weaken
      (renderTemplate_has_function
        (show generateMemoryFunctions.headD "" ∈
            generateFunctions { GetDefaultConfig with Features.Memory := true }
          by decide)) ?_
    exact (containsSub_true_iff _ _).mp (by rfl)
  · unfold cliScript renderTemplate
    refine scriptHas_append_right (scriptHas_append_left _ ?_) _
    show scriptHas
      (generateMainContent { GetDefaultConfig with Features.Memory := true })
      "elif user_input.lower().startswith('mem'):"
    exact (containsSub_true_iff _ _).mp (by rfl)
  · unfold scriptHas
    simp only [cliScript, renderTemplate, prepareTemplateData, generateImports,
      generateFunctions, generateMainContent, GetDefaultConfig,
      generateBasicArithmetic, generateMemoryFunctions, strJoin, List.map,
      String.data_append, List.append_assoc, if_true, if_false,
      List.nil_append, List.append_nil]
    repeat
      rw [infix_append_chunk _ _ (by decide), not_or]
      refine ⟨not_infix_of_containsSub_false (by rfl), ?_⟩
    exact not_infix_of_containsSub_false (by rfl)

/-- C1 counterexample: the default configuration rendered at two different
clock readings yields different artifact bytes, so repeated calls to
`Generate` with one fixed configuration are not byte-identical. -/
theorem generate_not_timestamp_invariant :
    Generate GetDefaultConfig "2024-01-01 00:00:00" ≠
      Generate GetDefaultConfig "2024-01-02 00:00:00" := by
  intro h
  have h1 : Generate GetDefaultConfig "2024-01-01 00:00:00" =
      Except.ok (cliScript GetDefaultConfig "2024-01-01 00:00:00",
        generateRequirements GetDefaultConfig) := rfl
  have h2 : Generate GetDefaultConfig "2024-01-02 00:00:00" =
      Except.ok (cliScript GetDefaultConfig "2024-01-02 00:00:00",
        generateRequirements GetDefaultConfig) := rfl
  rw [h1, h2] at h
  have h3 := congrArg Prod.fst (Except.ok.inj h)
  have h4 := (cliScript_inj_timestamp _ _ _).mp h3
  exact absurd h4 (by decide)

/-- C1 amended: the artifact is a pure function of the configuration and
the clock reading. For GUI style the clock reading is not embedded, so
repeated calls are byte-identical; for any other style the artifacts of two
calls coincide exactly when the embedded timestamps coincide. -/
theorem generate_determined_by_config_and_timestamp
    (c : CalculatorConfig) (t₁ t₂ : String) :
    (c.UI.Style = "gui" → Generate c t₁ = Generate c t₂) ∧
    (c.UI.Style ≠ "gui" → validateConfig c = none →
      (Generate c t₁ = Generate c t₂ ↔ t₁ = t₂)) := by
  constructor
  · intro h
    unfold Generate
    cases validateConfig c <;> simp [h]
  · intro hs hv
    unfold Generate
    rw [hv]
    simp only [if_neg hs]
    constructor
    · intro h
      have h3 := congrArg Prod.fst (Except.ok.inj h)
      exact (cliScript_inj_timestamp c t₁ t₂).mp h3
    · rintro rfl
      rfl

/-- Witness for C1's amended claim: a GUI configuration is timestamp
independent, and the CLI default configuration satisfies the equivalence at
equal timestamps. -/
theorem generate_determined_by_config_and_timestamp_witness :
    Generate { GetDefaultConfig with UI.Style := "gui" } "2024-01-01 00:00:00" =
      Generate { GetDefaultConfig with UI.Style := "gui" } "2024-01-02 00:00:00" ∧
    (Generate GetDefaultConfig "2024-01-01 00:00:00" =
        Generate GetDefaultConfig "2024-01-01 00:00:00" ↔
      ("2024-01-01 00:00:00" : String) = "2024-01-01 00:00:00") :=
  ⟨(generate_determined_by_config_and_timestamp _ _ _).1 rfl,
   (generate_determined_by_config_and_timestamp _ _ _).2
     (by decide) (by decide)⟩

/-- C4: each feature token, applied through `applyFeaturesFromFlags` to any
configuration, switches on the feature and every library the entailment
table assigns to it: trigonometric/logarithmic/exponential entail math;
statistical/linear-algebra/matrix-operations entail numpy; data-analysis
entails numpy and pandas; plotting/graphing entail plotly;
equation-solver/calculus entail sympy. -/
theorem feature_entailment_table (c : CalculatorConfig) :
    (∃ c', applyFeaturesFromFlags "trigonometric" c = .ok c' ∧
      c'.Features.Trigonometric = true ∧ c'.Libraries.UseMath = true) ∧
    (∃ c', applyFeaturesFromFlags "logarithmic" c = .ok c' ∧
      c'.Features.Logarithmic = true ∧ c'.Libraries.UseMath = true) ∧
    (∃ c', applyFeaturesFromFlags "exponential" c = .ok c' ∧
      c'.Features.Exponential = true ∧ c'.Libraries.UseMath = true) ∧
    (∃ c', applyFeaturesFromFlags "statistical" c = .ok c' ∧
      c'.Features.Statistical = true ∧ c'.Libraries.UseNumpy = true) ∧
    (∃ c', applyFeaturesFromFlags "linear-algebra" c = .ok c' ∧
      c'.Features.LinearAlgebra = true ∧ c'.Libraries.UseNumpy = true) ∧
    (∃ c', applyFeaturesFromFlags "matrix-operations" c = .ok c' ∧
      c'.Features.MatrixOperations = true ∧ c'.Libraries.UseNumpy = true) ∧
    (∃ c', applyFeaturesFromFlags "data-analysis" c = .ok c' ∧
      c'.Features.DataAnalysis = true ∧ c'.Libraries.UseNumpy = true ∧
      c'.Libraries.UsePandas = true) ∧
    (∃ c', applyFeaturesFromFlags "plotting" c = .ok c' ∧
      c'.Features.Plotting = true ∧ c'.Libraries.UsePlotly = true) ∧
    (∃ c', applyFeaturesFromFlags "graphing" c = .ok c' ∧
      c'.Features.Graphing = true ∧ c'.Libraries.UsePlotly = true) ∧
    (∃ c', applyFeaturesFromFlags "equation-solver" c = .ok c' ∧
      c'.Features.EquationSolver = true ∧ c'.Libraries.UseSympy = true) ∧
    (∃ c', applyFeaturesFromFlags "calculus" c = .ok c' ∧
      c'.Features.Calculus = true ∧ c'.Libraries.UseSympy = true) :=
  ⟨⟨{ c with Features.Trigonometric := true, Libraries.UseMath := true },
     rfl, rfl, rfl⟩,
   ⟨{ c with Features.Logarithmic := true, Libraries.UseMath := true },
     rfl, rfl, rfl⟩,
   ⟨{ c with Features.Exponential := true, Libraries.UseMath := true },
     rfl, rfl, rfl⟩,
   ⟨{ c with Features.Statistical := true, Libraries.UseNumpy := true },
     rfl, rfl, rfl⟩,
   ⟨{ c with Features.LinearAlgebra := true, Libraries.UseNumpy := true },
     rfl, rfl, rfl⟩,
   ⟨{ c with Features.MatrixOperations := true, Libraries.UseNumpy := true },
     rfl, rfl, rfl⟩,
   ⟨{ c with Features.DataAnalysis := true, Libraries.UsePandas := true, Libraries.UseNumpy := true },
     rfl, rfl, rfl, rfl⟩,
   ⟨{ c with Features.Plotting := true, Libraries.UsePlotly := true },
     rfl, rfl, rfl⟩,
   ⟨{ c with Features.Graphing := true, Libraries.UsePlotly := true },
     rfl, rfl, rfl⟩,
   ⟨{ c with Features.EquationSolver := true, Libraries.UseSympy := true },
     rfl, rfl, rfl⟩,
   ⟨{ c with Features.Calculus := true, Libraries.UseSympy := true },
     rfl, rfl, rfl⟩⟩

lemma mem_of_mem_ite_nil {α : Type} {P : Prop} [Decidable P] {L : List α}
    {s : α} (h : s ∈ (if P then L else [])) : s ∈ L := by
  by_cases hp : P
  · rwa [if_pos hp] at h
  · rw [if_neg hp] at h
    cases h

/-- C10: statistical and linear-algebra fragments reach the generated
script only when the numpy library flag is on: with numpy off, no
statistical or linear-algebra fragment is in the CLI fragment list and no
statistical fragment is in the GUI fragment list, whatever the feature
flags say (the generators simply skip them, without error). -/
theorem statistical_fragments_require_numpy (c : CalculatorConfig)
    (str : String) (hn : c.Libraries.UseNumpy = false) :
    (str ∈ generateStatisticalFunctions → str ∉ generateFunctions c) ∧
    (str ∈ generateLinearAlgebraFunctions → str ∉ generateFunctions c) ∧
    (str ∈ generateGUIStatisticalFunctions → str ∉ generateGUIFunctions c) := by
  refine ⟨?_, ?_, ?_⟩
  · intro hs hmem
    simp only [generateFunctions, hn, Bool.and_false, Bool.false_eq_true,
      if_false, List.append_nil] at hmem
    simp only [generateStatisticalFunctions, List.mem_cons,
      List.not_mem_nil, or_false] at hs
    simp only [List.mem_append] at hmem
    rcases hs with rfl | rfl | rfl | rfl | rfl <;>
      rcases hmem with ((((((h | h) | h) | h) | h) | h) | h) <;>
        exact absurd (mem_of_mem_ite_nil h) (by decide)
  · intro hs hmem
    simp only [generateFunctions, hn, Bool.and_false, Bool.false_eq_true,
      if_false, List.append_nil] at hmem
    simp only [generateLinearAlgebraFunctions, List.mem_cons,
      List.not_mem_nil, or_false] at hs
    simp only [List.mem_append] at hmem
    rcases hs with rfl | rfl | rfl | rfl <;>
      rcases hmem with ((((((h | h) | h) | h) | h) | h) | h) <;>
        exact absurd (mem_of_mem_ite_nil h) (by decide)
  · intro hs hmem
    simp only [generateGUIFunctions, hn, Bool.and_false, Bool.false_eq_true,
      if_false, List.append_nil] at hmem
    simp only [generateGUIStatisticalFunctions, List.mem_cons,
      List.not_mem_nil, or_false] at hs
    simp only [List.mem_append] at hmem
    subst hs
    rcases hmem with ((((h | h) | h) | h) | h) <;>
      exact absurd (mem_of_mem_ite_nil h) (by decide)

/-- Witness for C10: with the statistical feature on but numpy off, the
mean fragment is absent from the CLI fragment list, and the GUI statistics
fragment is absent from the GUI fragment list. -/
theorem statistical_fragments_require_numpy_witness :
    ("def mean(data):\n    \"\"\"Calculate mean of data\"\"\"\n    return np.mean(data)" ∉
      generateFunctions { GetDefaultConfig with Features.Statistical := true }) ∧
    (generateGUIStatisticalFunctions.headD "" ∉
      generateGUIFunctions { GetDefaultConfig with Features.Statistical := true }) :=
  ⟨(statistical_fragments_require_numpy _ _ rfl).1 (by decide),
   (statistical_fragments_require_numpy _ _ rfl).2.2 (by decide)⟩

/-- C5: resolution of a library/feature selection is purely additive — the
resolved configuration keeps every flag that was on and changes no
non-flag field — and idempotent: re-applying the same selection to an
already-resolved configuration returns it unchanged. -/
theorem resolve_additive_and_idempotent (librariesStr featuresStr : String)
    (c c' : CalculatorConfig)
    (h : resolveConfig librariesStr featuresStr c = .ok c') :
    configLe c c' ∧
    resolveConfig librariesStr featuresStr c' = .ok c' := by
  unfold resolveConfig at h ⊢
  cases hl : applyLibrariesFromFlags librariesStr c with
  | error e =>
    rw [hl] at h
    simp only [Bind.bind, Except.bind] at h
    cases h
  | ok c₁ =>
    rw [hl] at h
    simp only [Bind.bind, Except.bind] at h
    obtain ⟨fsl, hfsl, rfl⟩ := (applyLibrariesFromFlags_ok_iff _ _ _).mp hl
    obtain ⟨fsf, hfsf, rfl⟩ := (applyFeaturesFromFlags_ok_iff _ _ _).mp h
    constructor
    · exact configLe_trans (configLe_setFlags fsl c) (configLe_setFlags fsf _)
    · have hl2 := (applyLibrariesFromFlags_ok_iff librariesStr
        (setFlags fsf (setFlags fsl c)) _).mpr ⟨fsl, hfsl, rfl⟩
      rw [hl2]
      simp only [Bind.bind, Except.bind]
      have hf2 := (applyFeaturesFromFlags_ok_iff featuresStr
        (setFlags fsl (setFlags fsf (setFlags fsl c))) _).mpr ⟨fsf, hfsf, rfl⟩
      rw [hf2]
      have key : setFlags fsf (setFlags fsl (setFlags fsf (setFlags fsl c))) =
          setFlags fsf (setFlags fsl c) := by
        rw [← setFlags_append fsl fsf (setFlags fsf (setFlags fsl c)),
          ← setFlags_append fsl fsf c, setFlags_idem]
      rw [key]

/-- Witness for C5: resolving numpy + plotting over the default
configuration is above the default in the flag order, and resolving the
result again leaves it unchanged. -/
theorem resolve_additive_and_idempotent_witness :
    configLe GetDefaultConfig
      { GetDefaultConfig with Libraries.UseNumpy := true, Features.Plotting := true, Libraries.UsePlotly := true } ∧
    resolveConfig "numpy" "plotting"
      { GetDefaultConfig with Libraries.UseNumpy := true, Features.Plotting := true, Libraries.UsePlotly := true } =
      .ok { GetDefaultConfig with Libraries.UseNumpy := true, Features.Plotting := true, Libraries.UsePlotly := true } :=
  resolve_additive_and_idempotent "numpy" "plotting" _ _ (by rfl)

end CalcGen
